import Mathlib

/-!
# The DP scout of `include/seqan/align/dp_scout.h`

A shallow embedding of the running-maximum tracker (`DPScout_`) and of the
functions that update and query it: `_copySimdCell`, `_scoutBestScore`,
`maxScore`, `maxHostPosition`, `_terminationCriteriumIsMet`, `terminateScout`,
and of the constructors of the class.

Conventions of the embedding.

* A scalar score (`TScoreValue`) is an `Int`; the scout only compares scores.
* A SIMD score vector is a function `Fin (2 * H) → Int`: lane `k` is the value of
  the signed 16-bit score of alignment `k`; the scout compares and copies lanes
  and does no arithmetic on them.  `H` is the number of 32-bit lanes of a
  register (8 with AVX2, 4 with SSE3), so a register holds `2 * H` alignments;
  the definitions are written for any `H`.
* A comparison mask and the position vectors hold bit patterns: a lane is a
  `Nat`, below `2 ^ 16` for a mask of 16-bit lanes, below `2 ^ 32` for the
  32-bit lanes of `_maxHostLow` and `_maxHostHigh`.
* `position(navigator)` is a `Nat`; storing it in a `uint32_t` slot or
  broadcasting it into 32-bit lanes keeps it modulo `2 ^ 32`.
* A mutating function `f(dpScout, ...)` is the function from the scout before
  the call to the scout after it.
-/

namespace seqan

/-! ## Score cells -/

/-- Gap-cost models: the tags under which a cell is classified
(`LinearGapCosts`, `AffineGapCosts`, `DynamicGapCosts`). -/
inductive GapCosts
  | LinearGaps
  | AffineGaps
  | DynamicGaps
  deriving DecidableEq, Repr

/-- Modelled from the spec: the linear score cell, "score only".  The cell classes
are not defined in `dp_scout.h`; `_copySimdCell` names the field `_score`. -/
structure LinearCell (α : Type) where
  _score : α
  deriving DecidableEq, Repr

/-- Modelled from the spec: the affine score cell, "score, horizontal, vertical".
`_copySimdCell` names the fields `_score`, `_horizontalScore`, `_verticalScore`. -/
structure AffineCell (α : Type) where
  _score : α
  _horizontalScore : α
  _verticalScore : α
  deriving DecidableEq, Repr

/-- Modelled from the spec: the dynamic score cell, "score, flag mask".
`_copySimdCell` names the fields `_score` and `_flagMask`; both are blended under a
mask of score lanes, so the flag mask has the lanes of the score. -/
structure DynamicCell (α : Type) where
  _score : α
  _flagMask : α
  deriving DecidableEq, Repr

/-- The cell type `TDPCell` with values of type `α`, for each gap-cost model. -/
abbrev DPCell_ (α : Type) : GapCosts → Type
  | .LinearGaps => LinearCell α
  | .AffineGaps => AffineCell α
  | .DynamicGaps => DynamicCell α

/-- Modelled from the spec: `_scoreOfCell`, the "ordering-comparable score" of a
cell (the function is used, not defined, in `dp_scout.h`). -/
def _scoreOfCell {α : Type} : {g : GapCosts} → DPCell_ α g → α
  | .LinearGaps, c => LinearCell._score c
  | .AffineGaps, c => AffineCell._score c
  | .DynamicGaps, c => DynamicCell._score c

/-- Apply `f` to every field of a cell. -/
def DPCell_.map {α β : Type} (f : α → β) : {g : GapCosts} → DPCell_ α g → DPCell_ β g
  | .LinearGaps, c => LinearCell.mk (f (LinearCell._score c))
  | .AffineGaps, c =>
      AffineCell.mk (f (AffineCell._score c)) (f (AffineCell._horizontalScore c))
        (f (AffineCell._verticalScore c))
  | .DynamicGaps, c => DynamicCell.mk (f (DynamicCell._score c)) (f (DynamicCell._flagMask c))

/-- The cell of alignment `k` inside a vectorized cell: every field at lane `k`. -/
def laneCell {n : Nat} {g : GapCosts} (k : Fin n) (c : DPCell_ (Fin n → Int) g) : DPCell_ Int g :=
  DPCell_.map (fun v => v k) c

/-! ## The scout -/

/-- The specialization tag `TSpec` of `DPScout_`: `Default` or `Terminator_<>`. -/
inductive ScoutSpec
  | Default
  | Terminator
  deriving DecidableEq, Repr

/-- The members the `Terminator_` specialization adds: the flag and the pointer to
the scout state (`none` is the null pointer, `some a` the address of a state). -/
structure TerminatorMembers where
  terminationCriteriumMet : Bool
  state : Option Nat
  deriving DecidableEq, Repr

/-- Members added by a specialization: none for `Default`. -/
abbrev SpecMembers : ScoutSpec → Type
  | .Default => Unit
  | .Terminator => TerminatorMembers

/-- The class `DPScout_<TDPCell, TSpec>`.  `LENGTH` is `LENGTH<TScoreValue>::VALUE`
(1 for a scalar score, `2 * H` for a SIMD score); `H` is the number of lanes of
`SimdVector<int32_t>::Type`, and `H = 0` is the build without `__AVX2__` and
`__SSE3__`, where the two SIMD members do not exist. -/
structure DPScout_ (TDPCell : Type) (LENGTH H : Nat) (TSpec : ScoutSpec) where
  _maxScore : TDPCell
  _maxHostPosition : Fin LENGTH → Nat
  _maxHostLow : Fin H → Nat
  _maxHostHigh : Fin H → Nat
  terminator : SpecMembers TSpec

section Constructors

variable {TDPCell : Type} {LENGTH H : Nat}

/-- `DPScout_() {}` of the default scout: `_maxScore` is default-constructed
(`dflt` stands for `TDPCell()`, which this file does not define) and no other
member is initialised, so each keeps what the storage `mem` held. -/
def DPScout_.ctor (dflt : TDPCell) (mem : DPScout_ TDPCell LENGTH H .Default) :
    DPScout_ TDPCell LENGTH H .Default :=
  { mem with _maxScore := dflt }

/-- `DPScout_(DPScoutState_<Default> const &) {}`: the state is left unused. -/
def DPScout_.ctorState (dflt : TDPCell) (mem : DPScout_ TDPCell LENGTH H .Default)
    (_state : Unit) : DPScout_ TDPCell LENGTH H .Default :=
  { mem with _maxScore := dflt }

/-- `DPScout_()` of the terminator scout: `TParent()`, flag `false`, `state(0)`. -/
def DPScout_.ctorTerminator (dflt : TDPCell) (mem : DPScout_ TDPCell LENGTH H .Terminator) :
    DPScout_ TDPCell LENGTH H .Terminator :=
  { mem with _maxScore := dflt
             terminator := { terminationCriteriumMet := false, state := none } }

/-- `DPScout_(DPScoutState_<Terminator_<TSpec> > & state)` of the terminator scout:
`TParent()`, flag `false`, `state(&state)`. -/
def DPScout_.ctorTerminatorState (dflt : TDPCell)
    (mem : DPScout_ TDPCell LENGTH H .Terminator) (stateAddr : Nat) :
    DPScout_ TDPCell LENGTH H .Terminator :=
  { mem with _maxScore := dflt
             terminator := { terminationCriteriumMet := false, state := some stateAddr } }

end Constructors

/-! ## Queries and the termination flag -/

/-- `maxScore`: `return _scoreOfCell(dpScout._maxScore)`. -/
def maxScore {α : Type} {g : GapCosts} {LENGTH H : Nat} {TSpec : ScoutSpec}
    (dpScout : DPScout_ (DPCell_ α g) LENGTH H TSpec) : α :=
  _scoreOfCell dpScout._maxScore

/-- `maxHostPosition`: `return dpScout._maxHostPosition[pos]`.  The index is a
`Fin LENGTH`: an index outside the array is outside the function's contract. -/
def maxHostPosition {TDPCell : Type} {LENGTH H : Nat} {TSpec : ScoutSpec}
    (dpScout : DPScout_ TDPCell LENGTH H TSpec) (pos : Fin LENGTH) : Nat :=
  dpScout._maxHostPosition pos

/-- `_terminationCriteriumIsMet`: `return scout.terminationCriteriumMet`. -/
def _terminationCriteriumIsMet {TDPCell : Type} {LENGTH H : Nat}
    (scout : DPScout_ TDPCell LENGTH H .Terminator) : Bool :=
  scout.terminator.terminationCriteriumMet

/-- `terminateScout`: `scout.terminationCriteriumMet = true`. -/
def terminateScout {TDPCell : Type} {LENGTH H : Nat}
    (scout : DPScout_ TDPCell LENGTH H .Terminator) : DPScout_ TDPCell LENGTH H .Terminator :=
  { scout with terminator := { scout.terminator with terminationCriteriumMet := true } }

/-- One visited cell as the traversal presents it to `_scoutBestScore`: the active
cell, `position(navigator)`, and the two tags. -/
structure Visit (TDPCell : Type) where
  activeCell : TDPCell
  position : Nat
  isLastColumn : Bool
  isLastRow : Bool

/-! ## The scalar update -/

namespace Scalar

/-- The scalar scout.  `LENGTH<TScoreValue>::VALUE`, which `dp_scout.h` uses and does
not define, is taken from the spec: the position array has "length 1 in scalar
mode". -/
abbrev Scout (g : GapCosts) (H : Nat) (TSpec : ScoutSpec) : Type :=
  DPScout_ (DPCell_ Int g) 1 H TSpec

variable {g : GapCosts} {H : Nat} {TSpec : ScoutSpec}

/-- The overload of `_scoutBestScore` for a score that is not a SIMD vector:
if `_scoreOfCell(activeCell) > _scoreOfCell(dpScout._maxScore)`, the cell is copied
and `_maxHostPosition[0]` (a `uint32_t`) takes `position(navigator)`.  The two
tags are unnamed parameters. -/
def _scoutBestScore (dpScout : Scout g H TSpec) (activeCell : DPCell_ Int g) (position : Nat)
    (_isLastColumn _isLastRow : Bool) : Scout g H TSpec :=
  if _scoreOfCell activeCell > _scoreOfCell dpScout._maxScore then
    { dpScout with
      _maxScore := activeCell
      _maxHostPosition := Function.update dpScout._maxHostPosition 0 (position % 2 ^ 32) }
  else dpScout

/-- The four-argument overload:
`_scoutBestScore(dpScout, activeCell, navigator, TIsLastColumn(), False())`. -/
def _scoutBestScore4 (dpScout : Scout g H TSpec) (activeCell : DPCell_ Int g) (position : Nat)
    (isLastColumn : Bool) : Scout g H TSpec :=
  _scoutBestScore dpScout activeCell position isLastColumn false

/-- The three-argument overload:
`_scoutBestScore(dpScout, activeCell, navigator, False(), False())`. -/
def _scoutBestScore3 (dpScout : Scout g H TSpec) (activeCell : DPCell_ Int g) (position : Nat) :
    Scout g H TSpec :=
  _scoutBestScore dpScout activeCell position false false

/-- A traversal: `_scoutBestScore` called once per visited cell, in order. -/
def scoutCells (dpScout : Scout g H TSpec) (visits : List (Visit (DPCell_ Int g))) :
    Scout g H TSpec :=
  visits.foldl
    (fun s v => _scoutBestScore s v.activeCell v.position v.isLastColumn v.isLastRow) dpScout

end Scalar

/-! ## SIMD primitives -/

/-- Modelled from the spec: `cmpGt`, the "per-lane boolean mask =
activeCell.score[lane] > stored.score[lane]".  `dp_scout.h` hands the result to
16-bit integer intrinsics, so a true lane is the all-ones pattern `0xFFFF` and a
false lane is 0. -/
def cmpGt {n : Nat} (a b : Fin n → Int) : Fin n → Nat :=
  fun i => if a i > b i then 0xFFFF else 0

/-- Modelled from the spec: `blend(old, new, mask)` is "for each lane, new if mask
else old".  The lanes of the mask are `w` bits wide and a lane of the mask counts
as set when its top bit is set; on a lane that is all-ones or all-zeros this is
the boolean the lane stands for. -/
def blend {α : Type} {n : Nat} (w : Nat) (a b : Fin n → α) (mask : Fin n → Nat) : Fin n → α :=
  fun i => if 2 ^ (w - 1) ≤ mask i % 2 ^ w then b i else a i

/-- Modelled from the spec: `createVector<TSimdVector>(x)`, the "(broadcast)
incoming position": every lane holds `x`. -/
def createVector {α : Type} {n : Nat} (x : α) : Fin n → α :=
  fun _ => x

/-- Sign extension of a 16-bit pattern to a 32-bit pattern. -/
def signExtend16 (x : Nat) : Nat :=
  if x % 2 ^ 16 < 2 ^ 15 then x % 2 ^ 16 else x % 2 ^ 16 + (2 ^ 32 - 2 ^ 16)

/-- The intrinsic `_mm256_castsi256_si128`: the low half of the register, here the
16-bit lanes `0 .. H-1` of `2 * H`. -/
def _mm256_castsi256_si128 {H : Nat} (v : Fin (2 * H) → Nat) : Fin H → Nat :=
  fun i => v ⟨i.val, by omega⟩

/-- The intrinsic `_mm256_extractf128_si256(v, imm)`: the half selected by bit 0 of
`imm`; with `imm = 1` the 16-bit lanes `H .. 2*H-1`. -/
def _mm256_extractf128_si256 {H : Nat} (v : Fin (2 * H) → Nat) (imm : Nat) : Fin H → Nat :=
  fun i => if imm % 2 = 1 then v ⟨i.val + H, by omega⟩ else v ⟨i.val, by omega⟩

/-- The intrinsic `_mm256_cvtepi16_epi32`: each 16-bit lane, sign-extended, becomes
a 32-bit lane. -/
def _mm256_cvtepi16_epi32 {H : Nat} (v : Fin H → Nat) : Fin H → Nat :=
  fun i => signExtend16 (v i)

/-- The intrinsic `_mm_unpacklo_epi16(a, b)`: the 16-bit lanes of the low halves of
`a` and `b`, interleaved (`a0, b0, a1, b1, ...`). -/
def _mm_unpacklo_epi16 {H : Nat} (a b : Fin (2 * H) → Nat) : Fin (2 * H) → Nat :=
  fun j => if j.val % 2 = 0 then a ⟨j.val / 2, by omega⟩ else b ⟨j.val / 2, by omega⟩

/-- The intrinsic `_mm_unpackhi_epi16(a, b)`: the 16-bit lanes of the high halves of
`a` and `b`, interleaved. -/
def _mm_unpackhi_epi16 {H : Nat} (a b : Fin (2 * H) → Nat) : Fin (2 * H) → Nat :=
  fun j => if j.val % 2 = 0 then a ⟨H + j.val / 2, by omega⟩ else b ⟨H + j.val / 2, by omega⟩

/-- A register of `2 * H` 16-bit lanes read as `H` 32-bit lanes (little endian):
what happens when an `__m128i` of 16-bit lanes is used as the mask of a blend of
`SimdVector<int32_t>`. -/
def epi16AsEpi32 {H : Nat} (v : Fin (2 * H) → Nat) : Fin H → Nat :=
  fun i => v ⟨2 * i.val, by omega⟩ % 2 ^ 16 + 2 ^ 16 * (v ⟨2 * i.val + 1, by omega⟩ % 2 ^ 16)

/-! ## The vectorized update -/

/-- The instruction set the vectorized update is compiled for: `__AVX2__`, or else
`__SSE3__`. -/
inductive SimdArch
  | avx2
  | sse3
  deriving DecidableEq, Repr

namespace Simd

/-- The vectorized scout: one score lane and one `_maxHostPosition` entry per
alignment ("length = lane count" in the spec), `2 * H` of them: "SIMD register size
divided by 16bit is the amount of alignments". -/
abbrev Scout (g : GapCosts) (H : Nat) (TSpec : ScoutSpec) : Type :=
  DPScout_ (DPCell_ (Fin (2 * H) → Int) g) (2 * H) H TSpec

variable {H : Nat} {TSpec : ScoutSpec}

/-- The three overloads of `_copySimdCell`, one per gap-cost model: every field of
the stored cell is blended with the field of the active cell under `cmp`. -/
def _copySimdCell : {g : GapCosts} → Scout g H TSpec → DPCell_ (Fin (2 * H) → Int) g →
    (Fin (2 * H) → Nat) → Scout g H TSpec
  | .LinearGaps, dpScout, activeCell, cmp =>
      { dpScout with
        _maxScore :=
          { _score := blend 16 (LinearCell._score dpScout._maxScore)
              (LinearCell._score activeCell) cmp } }
  | .AffineGaps, dpScout, activeCell, cmp =>
      { dpScout with
        _maxScore :=
          { _score := blend 16 (AffineCell._score dpScout._maxScore)
              (AffineCell._score activeCell) cmp
            _horizontalScore := blend 16 (AffineCell._horizontalScore dpScout._maxScore)
              (AffineCell._horizontalScore activeCell) cmp
            _verticalScore := blend 16 (AffineCell._verticalScore dpScout._maxScore)
              (AffineCell._verticalScore activeCell) cmp } }
  | .DynamicGaps, dpScout, activeCell, cmp =>
      { dpScout with
        _maxScore :=
          { _score := blend 16 (DynamicCell._score dpScout._maxScore)
              (DynamicCell._score activeCell) cmp
            _flagMask := blend 16 (DynamicCell._flagMask dpScout._maxScore)
              (DynamicCell._flagMask activeCell) cmp } }

variable {g : GapCosts}

/-- The overload of `_scoutBestScore` for a SIMD score: the mask `cmp`, then
`_copySimdCell`, then the blend of both position halves under the widened mask
(`#if defined(__AVX2__)` ... `#elif defined(__SSE3__)`).  `_maxHostPosition` is not
assigned. -/
def _scoutBestScore (arch : SimdArch) (dpScout : Scout g H TSpec)
    (activeCell : DPCell_ (Fin (2 * H) → Int) g) (position : Nat)
    (_isLastColumn _isLastRow : Bool) : Scout g H TSpec :=
  let cmp := cmpGt (_scoreOfCell activeCell) (_scoreOfCell dpScout._maxScore)
  let dpScout := _copySimdCell dpScout activeCell cmp
  match arch with
  | .avx2 =>
      { dpScout with
        _maxHostLow := blend 32 dpScout._maxHostLow (createVector (position % 2 ^ 32))
          (_mm256_cvtepi16_epi32 (_mm256_castsi256_si128 cmp))
        _maxHostHigh := blend 32 dpScout._maxHostHigh (createVector (position % 2 ^ 32))
          (_mm256_cvtepi16_epi32 (_mm256_extractf128_si256 cmp 1)) }
  | .sse3 =>
      { dpScout with
        _maxHostLow := blend 32 dpScout._maxHostLow (createVector (position % 2 ^ 32))
          (epi16AsEpi32 (_mm_unpacklo_epi16 cmp cmp))
        _maxHostHigh := blend 32 dpScout._maxHostHigh (createVector (position % 2 ^ 32))
          (epi16AsEpi32 (_mm_unpackhi_epi16 cmp cmp)) }

/-- The four-argument overload, resolved to the SIMD update. -/
def _scoutBestScore4 (arch : SimdArch) (dpScout : Scout g H TSpec)
    (activeCell : DPCell_ (Fin (2 * H) → Int) g) (position : Nat) (isLastColumn : Bool) :
    Scout g H TSpec :=
  _scoutBestScore arch dpScout activeCell position isLastColumn false

/-- The three-argument overload, resolved to the SIMD update. -/
def _scoutBestScore3 (arch : SimdArch) (dpScout : Scout g H TSpec)
    (activeCell : DPCell_ (Fin (2 * H) → Int) g) (position : Nat) : Scout g H TSpec :=
  _scoutBestScore arch dpScout activeCell position false false

/-- A traversal: the vectorized `_scoutBestScore` called once per visited cell. -/
def scoutCells (arch : SimdArch) (dpScout : Scout g H TSpec)
    (visits : List (Visit (DPCell_ (Fin (2 * H) → Int) g))) : Scout g H TSpec :=
  visits.foldl
    (fun s v => _scoutBestScore arch s v.activeCell v.position v.isLastColumn v.isLastRow) dpScout

/-- The position lane of alignment `k`: `_maxHostLow` holds the first half of the
alignments, `_maxHostHigh` the other half. -/
def hostLane (dpScout : Scout g H TSpec) (k : Fin (2 * H)) : Nat :=
  if h : k.val < H then dpScout._maxHostLow ⟨k.val, h⟩
  else dpScout._maxHostHigh ⟨k.val - H, by omega⟩

/-- The visit of alignment `k` inside a vectorized visit. -/
def laneVisit (k : Fin (2 * H)) (v : Visit (DPCell_ (Fin (2 * H) → Int) g)) :
    Visit (DPCell_ Int g) :=
  { activeCell := laneCell k v.activeCell
    position := v.position
    isLastColumn := v.isLastColumn
    isLastRow := v.isLastRow }

end Simd

/-! ## Interleavings of calls on a terminator scout -/

/-- One call made on a terminator scout: an update with a visited cell, or
`terminateScout`. -/
inductive ScoutCall (TDPCell : Type)
  | update (visit : Visit TDPCell)
  | terminate

/-- Whether a call is `terminateScout`. -/
def ScoutCall.isTerminate {TDPCell : Type} : ScoutCall TDPCell → Bool
  | .update _ => false
  | .terminate => true

/-- A sequence of calls on a scalar terminator scout, in order. -/
def Scalar.runCalls {g : GapCosts} {H : Nat} (scout : Scalar.Scout g H .Terminator)
    (calls : List (ScoutCall (DPCell_ Int g))) : Scalar.Scout g H .Terminator :=
  calls.foldl
    (fun s c =>
      match c with
      | .update v => Scalar._scoutBestScore s v.activeCell v.position v.isLastColumn v.isLastRow
      | .terminate => terminateScout s)
    scout

/-- A sequence of calls on a vectorized terminator scout, in order. -/
def Simd.runCalls {g : GapCosts} {H : Nat} (arch : SimdArch) (scout : Simd.Scout g H .Terminator)
    (calls : List (ScoutCall (DPCell_ (Fin (2 * H) → Int) g))) : Simd.Scout g H .Terminator :=
  calls.foldl
    (fun s c =>
      match c with
      | .update v =>
          Simd._scoutBestScore arch s v.activeCell v.position v.isLastColumn v.isLastRow
      | .terminate => terminateScout s)
    scout

/-! ## Calls of the queries -/

section QueryCalls

variable {TDPCell : Type} {LENGTH H : Nat} {TSpec : ScoutSpec}

/-- A call `maxScore(dpScout)`.  The parameter is `DPScout_<...> const &`: the call
returns its value and the scout after the call is the scout before it. -/
def maxScoreCall {α : Type} {g : GapCosts} (dpScout : DPScout_ (DPCell_ α g) LENGTH H TSpec) :
    α × DPScout_ (DPCell_ α g) LENGTH H TSpec :=
  (maxScore dpScout, dpScout)

/-- A call `maxHostPosition(dpScout, pos)`; the scout parameter is a reference to
const. -/
def maxHostPositionCall (dpScout : DPScout_ TDPCell LENGTH H TSpec) (pos : Fin LENGTH) :
    Nat × DPScout_ TDPCell LENGTH H TSpec :=
  (maxHostPosition dpScout pos, dpScout)

/-- A call `_terminationCriteriumIsMet(scout)`; the scout parameter is a reference to
const. -/
def _terminationCriteriumIsMetCall (scout : DPScout_ TDPCell LENGTH H .Terminator) :
    Bool × DPScout_ TDPCell LENGTH H .Terminator :=
  (_terminationCriteriumIsMet scout, scout)

/-- The terminator scout `scout` with its member `state` replaced by `ref`. -/
def DPScout_.withState (scout : DPScout_ TDPCell LENGTH H .Terminator) (ref : Option Nat) :
    DPScout_ TDPCell LENGTH H .Terminator :=
  { scout with terminator := { scout.terminator with state := ref } }

end QueryCalls

/-! ## Example data -/

namespace Example

/-- A default-constructed linear cell: a score far below the scores presented. -/
def defaultCell : DPCell_ Int .LinearGaps :=
  { _score := -1073741824 }

/-- Storage of a scalar scout before construction, here holding zeros. -/
def scalarStorage : Scalar.Scout .LinearGaps 0 .Default :=
  { _maxScore := { _score := 0 }
    _maxHostPosition := fun _ => 0
    _maxHostLow := fun _ => 0
    _maxHostHigh := fun _ => 0
    terminator := () }

/-- A freshly constructed scalar scout. -/
def freshScalar : Scalar.Scout .LinearGaps 0 .Default :=
  DPScout_.ctor defaultCell scalarStorage

/-- Visits of linear cells given as (score, position) pairs, with both tags false. -/
def linearVisits (xs : List (Int × Nat)) : List (Visit (DPCell_ Int .LinearGaps)) :=
  xs.map (fun x =>
    { activeCell := { _score := x.1 }, position := x.2, isLastColumn := false, isLastRow := false })

/-- A default-constructed vectorized linear cell of two lanes. -/
def defaultCell2 : DPCell_ (Fin (2 * 1) → Int) .LinearGaps :=
  { _score := fun _ => -16384 }

/-- Storage of a two-lane vectorized scout before construction, holding zeros. -/
def simdStorage : Simd.Scout .LinearGaps 1 .Default :=
  { _maxScore := { _score := fun _ => 0 }
    _maxHostPosition := fun _ => 0
    _maxHostLow := fun _ => 0
    _maxHostHigh := fun _ => 0
    terminator := () }

/-- A freshly constructed two-lane vectorized scout. -/
def freshSimd : Simd.Scout .LinearGaps 1 .Default :=
  DPScout_.ctor defaultCell2 simdStorage

/-- The two-lane scenario: lane 0 scores 1 then 3, lane 1 scores 5 then 2, at
positions 10 then 11. -/
def twoLaneVisits : List (Visit (DPCell_ (Fin (2 * 1) → Int) .LinearGaps)) :=
  [{ activeCell := { _score := ![1, 5] }, position := 10, isLastColumn := false,
     isLastRow := false },
   { activeCell := { _score := ![3, 2] }, position := 11, isLastColumn := false,
     isLastRow := false }]

/-- The scalar scout of one lane of `freshSimd`: the same stored score, and the
position 0 that both position stores of `freshSimd` hold. -/
def freshLane : Scalar.Scout .LinearGaps 0 .Default :=
  DPScout_.ctor { _score := -16384 } scalarStorage

/-- A scalar affine scout that stores the cell (2, 0, 0) found at position 4. -/
def affineScalar : Scalar.Scout .AffineGaps 0 .Default :=
  { _maxScore := { _score := 2, _horizontalScore := 0, _verticalScore := 0 }
    _maxHostPosition := fun _ => 4
    _maxHostLow := fun _ => 0
    _maxHostHigh := fun _ => 0
    terminator := () }

/-- A two-lane affine scout that stores the cell (2, 0, 0) in both lanes. -/
def affineSimd : Simd.Scout .AffineGaps 1 .Default :=
  { _maxScore :=
      { _score := fun _ => 2, _horizontalScore := fun _ => 0, _verticalScore := fun _ => 0 }
    _maxHostPosition := fun _ => 0
    _maxHostLow := fun _ => 4
    _maxHostHigh := fun _ => 4
    terminator := () }

/-- A two-lane affine cell: lane 0 is (7, -3, 5), lane 1 is (1, 8, 9). -/
def affineCell2 : DPCell_ (Fin (2 * 1) → Int) .AffineGaps :=
  { _score := ![7, 1], _horizontalScore := ![-3, 8], _verticalScore := ![5, 9] }

/-- A scalar terminator scout with the termination flag set and a bound state. -/
def terminatedScalar : Scalar.Scout .LinearGaps 0 .Terminator :=
  { _maxScore := { _score := 2 }
    _maxHostPosition := fun _ => 4
    _maxHostLow := fun _ => 0
    _maxHostHigh := fun _ => 0
    terminator := { terminationCriteriumMet := true, state := some 64 } }

/-- A scalar default scout with the stored cell and position of `terminatedScalar`. -/
def defaultScalar : Scalar.Scout .LinearGaps 0 .Default :=
  { _maxScore := { _score := 2 }
    _maxHostPosition := fun _ => 4
    _maxHostLow := fun _ => 0
    _maxHostHigh := fun _ => 0
    terminator := () }

/-- A two-lane terminator scout with the stored cell and positions of `freshSimd`. -/
def terminatorSimd : Simd.Scout .LinearGaps 1 .Terminator :=
  { _maxScore := { _score := fun _ => -16384 }
    _maxHostPosition := fun _ => 0
    _maxHostLow := fun _ => 0
    _maxHostHigh := fun _ => 0
    terminator := { terminationCriteriumMet := false, state := none } }

/-- Storage of an SSE3 scout (8 alignments, `H = 4`) before construction, holding
zeros. -/
def sse3Storage : Simd.Scout .LinearGaps 4 .Default :=
  { _maxScore := { _score := fun _ => 0 }
    _maxHostPosition := fun _ => 0
    _maxHostLow := fun _ => 0
    _maxHostHigh := fun _ => 0
    terminator := () }

/-- A freshly constructed SSE3 scout of 8 alignments. -/
def freshSse3 : Simd.Scout .LinearGaps 4 .Default :=
  DPScout_.ctor { _score := fun _ => -16384 } sse3Storage

/-- The two-lane scenario inside an SSE3 register: alignment 0 scores 1 then 3,
alignment 1 scores 5 then 2, alignment 5 scores 4 then 6, the others 0, at
positions 10 then 11. -/
def sse3Visits : List (Visit (DPCell_ (Fin (2 * 4) → Int) .LinearGaps)) :=
  [{ activeCell := { _score := ![1, 5, 0, 0, 0, 4, 0, 0] }, position := 10,
     isLastColumn := false, isLastRow := false },
   { activeCell := { _score := ![3, 2, 0, 0, 0, 6, 0, 0] }, position := 11,
     isLastColumn := false, isLastRow := false }]

/-- Storage of an AVX2 scout (16 alignments, `H = 8`) before construction, holding
zeros. -/
def avx2Storage : Simd.Scout .LinearGaps 8 .Default :=
  { _maxScore := { _score := fun _ => 0 }
    _maxHostPosition := fun _ => 0
    _maxHostLow := fun _ => 0
    _maxHostHigh := fun _ => 0
    terminator := () }

/-- A freshly constructed AVX2 scout of 16 alignments. -/
def freshAvx2 : Simd.Scout .LinearGaps 8 .Default :=
  DPScout_.ctor { _score := fun _ => -16384 } avx2Storage

/-- A vectorized linear cell of 16 alignments: alignment 0 scores 1, alignment 9
scores 5, the others 0. -/
def avx2Cell : DPCell_ (Fin (2 * 8) → Int) .LinearGaps :=
  { _score := ![1, 0, 0, 0, 0, 0, 0, 0, 0, 5, 0, 0, 0, 0, 0, 0] }

/-- An SSE3 affine scout of 8 alignments that stores the cell (2, 0, 0) in every
lane, found at position 4. -/
def affineSse3 : Simd.Scout .AffineGaps 4 .Default :=
  { _maxScore :=
      { _score := fun _ => 2, _horizontalScore := fun _ => 0, _verticalScore := fun _ => 0 }
    _maxHostPosition := fun _ => 4
    _maxHostLow := fun _ => 4
    _maxHostHigh := fun _ => 4
    terminator := () }

/-- An affine cell of 8 alignments: alignment 0 is (7, -3, 5), alignment 5 is
(9, 1, 1), the others are (1, 8, 9). -/
def affineCell8 : DPCell_ (Fin (2 * 4) → Int) .AffineGaps :=
  { _score := ![7, 1, 1, 1, 1, 9, 1, 1]
    _horizontalScore := ![-3, 8, 8, 8, 8, 1, 8, 8]
    _verticalScore := ![5, 9, 9, 9, 9, 1, 9, 9] }

/-- A scalar default scout with the stored cell of `terminatedScalar` and another
stored position, 7. -/
def defaultScalarAt7 : Scalar.Scout .LinearGaps 0 .Default :=
  { _maxScore := { _score := 2 }
    _maxHostPosition := fun _ => 7
    _maxHostLow := fun _ => 0
    _maxHostHigh := fun _ => 0
    terminator := () }

/-- An SSE3 terminator scout with the stored cell of `freshSse3` and a position
array that holds 5. -/
def terminatorSse3At5 : Simd.Scout .LinearGaps 4 .Terminator :=
  { _maxScore := { _score := fun _ => -16384 }
    _maxHostPosition := fun _ => 5
    _maxHostLow := fun _ => 0
    _maxHostHigh := fun _ => 0
    terminator := { terminationCriteriumMet := false, state := none } }

end Example

/-! ## A running maximum with its position -/

section Tracking

variable {σ V C : Type}

/-- Any fold whose step adopts the pair (cell, position) of a visit exactly when the
visit's score is strictly greater ends either with the pair it started with or with
the pair of one visit: the one that was adopted and after which none was. -/
theorem tracked_pair_installed (sc : C → Int) (view : σ → C × Nat) (step : σ → V → σ)
    (cellOf : V → C) (posOf : V → Nat)
    (hstep : ∀ s v, view (step s v) =
      if sc (view s).1 < sc (cellOf v) then (cellOf v, posOf v % 2 ^ 32) else view s)
    (s : σ) (vs : List V) :
    view (vs.foldl step s) = view s ∨
      ∃ pre v post, vs = pre ++ v :: post ∧
        sc (view (pre.foldl step s)).1 < sc (cellOf v) ∧
        (∀ w ∈ post, sc (cellOf w) ≤ sc (cellOf v)) ∧
        view (vs.foldl step s) = (cellOf v, posOf v % 2 ^ 32) := by
  induction vs using List.reverseRecOn with
  | nil => exact Or.inl rfl
  | append_singleton vs v ih =>
    rw [List.foldl_append, List.foldl_cons, List.foldl_nil, hstep]
    by_cases h : sc (view (vs.foldl step s)).1 < sc (cellOf v)
    · right
      refine ⟨vs, v, [], rfl, h, ?_, ?_⟩
      · intro w hw; cases hw
      · rw [if_pos h]
    · rw [if_neg h]
      rcases ih with ih | ⟨pre, u, post, hvs, hlt, hpost, hview⟩
      · exact Or.inl ih
      · right
        refine ⟨pre, u, post ++ [v], ?_, hlt, ?_, hview⟩
        · rw [hvs]; simp
        · intro w hw
          rcases List.mem_append.mp hw with hw | hw
          · exact hpost w hw
          · rw [List.mem_singleton] at hw
            subst hw
            rw [hview] at h
            exact not_lt.mp h

end Tracking

/-! ## Lemmas on the scalar update -/

section ScalarLemmas

variable {g : GapCosts} {H : Nat} {TSpec : ScoutSpec}

theorem scalar_scoutCells_nil (s : Scalar.Scout g H TSpec) : Scalar.scoutCells s [] = s := rfl

theorem scalar_scoutCells_cons (s : Scalar.Scout g H TSpec) (v : Visit (DPCell_ Int g))
    (vs : List (Visit (DPCell_ Int g))) :
    Scalar.scoutCells s (v :: vs) =
      Scalar.scoutCells
        (Scalar._scoutBestScore s v.activeCell v.position v.isLastColumn v.isLastRow) vs := rfl

theorem scalar_scoutCells_append (s : Scalar.Scout g H TSpec)
    (vs ws : List (Visit (DPCell_ Int g))) :
    Scalar.scoutCells s (vs ++ ws) = Scalar.scoutCells (Scalar.scoutCells s vs) ws := by
  simp [Scalar.scoutCells, List.foldl_append]

/-- An update with a strictly greater score adopts the cell and the position. -/
theorem scalar_step_of_gt (s : Scalar.Scout g H TSpec) (c : DPCell_ Int g) (p : Nat) (a b : Bool)
    (h : maxScore s < _scoreOfCell c) :
    Scalar._scoutBestScore s c p a b =
      { s with
        _maxScore := c
        _maxHostPosition := Function.update s._maxHostPosition 0 (p % 2 ^ 32) } := by
  unfold Scalar._scoutBestScore
  rw [if_pos]
  exact h

/-- An update whose score is not strictly greater changes nothing. -/
theorem scalar_step_of_le (s : Scalar.Scout g H TSpec) (c : DPCell_ Int g) (p : Nat) (a b : Bool)
    (h : _scoreOfCell c ≤ maxScore s) : Scalar._scoutBestScore s c p a b = s := by
  unfold Scalar._scoutBestScore
  rw [if_neg]
  exact not_lt.mpr h

theorem scalar_maxScore_step (s : Scalar.Scout g H TSpec) (c : DPCell_ Int g) (p : Nat)
    (a b : Bool) :
    maxScore (Scalar._scoutBestScore s c p a b) = max (maxScore s) (_scoreOfCell c) := by
  rcases lt_or_le (maxScore s) (_scoreOfCell c) with h | h
  · rw [scalar_step_of_gt s c p a b h, max_eq_right (le_of_lt h)]
    rfl
  · rw [scalar_step_of_le s c p a b h, max_eq_left h]

theorem scalar_maxScore_le_scoutCells (s : Scalar.Scout g H TSpec)
    (vs : List (Visit (DPCell_ Int g))) : maxScore s ≤ maxScore (Scalar.scoutCells s vs) := by
  induction vs generalizing s with
  | nil => exact le_refl _
  | cons v vs ih =>
    rw [scalar_scoutCells_cons]
    refine le_trans ?_ (ih _)
    rw [scalar_maxScore_step]
    exact le_max_left _ _

theorem scalar_score_le_scoutCells (s : Scalar.Scout g H TSpec)
    (vs : List (Visit (DPCell_ Int g))) :
    ∀ v ∈ vs, _scoreOfCell v.activeCell ≤ maxScore (Scalar.scoutCells s vs) := by
  induction vs generalizing s with
  | nil => intro v hv; cases hv
  | cons w vs ih =>
    intro v hv
    rw [scalar_scoutCells_cons]
    rcases List.mem_cons.mp hv with rfl | hv
    · refine le_trans ?_ (scalar_maxScore_le_scoutCells _ vs)
      rw [scalar_maxScore_step]
      exact le_max_right _ _
    · exact ih _ v hv

/-- When the score did not rise over a traversal, no update was adopted. -/
theorem scalar_scoutCells_eq_self (s : Scalar.Scout g H TSpec)
    (vs : List (Visit (DPCell_ Int g)))
    (h : maxScore (Scalar.scoutCells s vs) = maxScore s) : Scalar.scoutCells s vs = s := by
  induction vs generalizing s with
  | nil => rfl
  | cons v vs ih =>
    rw [scalar_scoutCells_cons] at h ⊢
    have h1 := scalar_maxScore_le_scoutCells
      (Scalar._scoutBestScore s v.activeCell v.position v.isLastColumn v.isLastRow) vs
    rw [h, scalar_maxScore_step] at h1
    have h2 : _scoreOfCell v.activeCell ≤ maxScore s := le_trans (le_max_right _ _) h1
    rw [scalar_step_of_le s _ _ _ _ h2] at h ⊢
    exact ih s h

/-- The final score is the starting score or one of the presented scores. -/
theorem scalar_maxScore_scoutCells_mem (s : Scalar.Scout g H TSpec)
    (vs : List (Visit (DPCell_ Int g))) :
    maxScore (Scalar.scoutCells s vs) = maxScore s ∨
      ∃ v ∈ vs, _scoreOfCell v.activeCell = maxScore (Scalar.scoutCells s vs) := by
  induction vs generalizing s with
  | nil => exact Or.inl rfl
  | cons v vs ih =>
    rw [scalar_scoutCells_cons]
    rcases ih (Scalar._scoutBestScore s v.activeCell v.position v.isLastColumn v.isLastRow)
      with h | ⟨w, hw, hw2⟩
    · rw [h, scalar_maxScore_step]
      rcases le_total (maxScore s) (_scoreOfCell v.activeCell) with h3 | h3
      · right
        exact ⟨v, List.mem_cons_self _ _, (max_eq_right h3).symm⟩
      · left
        exact max_eq_left h3
    · right
      exact ⟨w, List.mem_cons_of_mem _ hw, hw2⟩

/-- Once some update was adopted, the stored position is that of the earliest visit
whose score is the final maximum. -/
theorem scalar_position_of_first_max (s : Scalar.Scout g H TSpec)
    (vs : List (Visit (DPCell_ Int g)))
    (h : maxScore s < maxScore (Scalar.scoutCells s vs)) :
    ∃ v, vs.find?
          (fun v => decide (_scoreOfCell v.activeCell = maxScore (Scalar.scoutCells s vs)))
          = some v ∧
      maxHostPosition (Scalar.scoutCells s vs) 0 = v.position % 2 ^ 32 := by
  induction vs generalizing s with
  | nil => exact absurd h (lt_irrefl _)
  | cons v vs ih =>
    rw [scalar_scoutCells_cons] at h ⊢
    by_cases hv : _scoreOfCell v.activeCell =
        maxScore (Scalar.scoutCells
          (Scalar._scoutBestScore s v.activeCell v.position v.isLastColumn v.isLastRow) vs)
    · refine ⟨v, ?_, ?_⟩
      · rw [List.find?_cons_of_pos]
        exact decide_eq_true hv
      · have hgt : maxScore s < _scoreOfCell v.activeCell := by rw [hv]; exact h
        have hstep := scalar_step_of_gt s v.activeCell v.position v.isLastColumn v.isLastRow hgt
        have hsame : Scalar.scoutCells
            (Scalar._scoutBestScore s v.activeCell v.position v.isLastColumn v.isLastRow) vs =
            Scalar._scoutBestScore s v.activeCell v.position v.isLastColumn v.isLastRow := by
          apply scalar_scoutCells_eq_self
          rw [← hv, hstep]
          rfl
        rw [hsame, hstep]
        simp [maxHostPosition]
    · have hle := scalar_score_le_scoutCells s (v :: vs) v (List.mem_cons_self _ _)
      rw [scalar_scoutCells_cons] at hle
      have hlt : maxScore
          (Scalar._scoutBestScore s v.activeCell v.position v.isLastColumn v.isLastRow) <
          maxScore (Scalar.scoutCells
            (Scalar._scoutBestScore s v.activeCell v.position v.isLastColumn v.isLastRow) vs) := by
        rw [scalar_maxScore_step]
        exact max_lt h (lt_of_le_of_ne hle hv)
      obtain ⟨w, hw, hw2⟩ := ih _ hlt
      refine ⟨w, ?_, hw2⟩
      rw [List.find?_cons_of_neg]
      · exact hw
      · simpa using hv

theorem scalar_step_view (s : Scalar.Scout g H TSpec) (v : Visit (DPCell_ Int g)) :
    ((Scalar._scoutBestScore s v.activeCell v.position v.isLastColumn v.isLastRow)._maxScore,
      maxHostPosition
        (Scalar._scoutBestScore s v.activeCell v.position v.isLastColumn v.isLastRow) 0) =
      if _scoreOfCell (s._maxScore, maxHostPosition s 0).1 < _scoreOfCell v.activeCell then
        (v.activeCell, v.position % 2 ^ 32)
      else (s._maxScore, maxHostPosition s 0) := by
  by_cases h : _scoreOfCell s._maxScore < _scoreOfCell v.activeCell
  · rw [if_pos h, scalar_step_of_gt s _ _ _ _ h]
    simp [maxHostPosition]
  · rw [if_neg h, scalar_step_of_le s _ _ _ _ (not_lt.mp h)]

/-- The final score is the fold of `max` over the starting score and the presented
scores. -/
theorem scalar_maxScore_scoutCells_foldl (s : Scalar.Scout g H TSpec)
    (vs : List (Visit (DPCell_ Int g))) :
    maxScore (Scalar.scoutCells s vs) =
      (vs.map (fun v => _scoreOfCell v.activeCell)).foldl max (maxScore s) := by
  induction vs generalizing s with
  | nil => rfl
  | cons v vs ih =>
    rw [scalar_scoutCells_cons, ih, scalar_maxScore_step, List.map_cons, List.foldl_cons]

end ScalarLemmas

/-! ## Lemmas on the vectorized update -/

section SimdLemmas

variable {H : Nat}

/-- The score blend under `cmp` selects by the comparison of the lane. -/
theorem blend_cmpGt {α : Type} {n : Nat} (x y : Fin n → α) (a b : Fin n → Int) (i : Fin n) :
    blend 16 x y (cmpGt a b) i = if b i < a i then y i else x i := by
  unfold blend cmpGt
  by_cases h : b i < a i
  · simp [h]
  · simp [h]

/-- AVX2, low half: the widened mask selects by the comparison of score lane `i`. -/
theorem blend_avx2_low {α : Type} (x y : Fin H → α) (a b : Fin (2 * H) → Int) (i : Fin H)
    (j : Fin (2 * H)) (hj : j.val = i.val) :
    blend 32 x y (_mm256_cvtepi16_epi32 (_mm256_castsi256_si128 (cmpGt a b))) i =
      if b j < a j then y i else x i := by
  have e : (⟨i.val, by omega⟩ : Fin (2 * H)) = j := Fin.ext hj.symm
  unfold blend _mm256_cvtepi16_epi32 _mm256_castsi256_si128 cmpGt signExtend16
  rw [e]
  by_cases h : b j < a j
  · simp [h]
  · simp [h]

/-- AVX2, high half: the widened mask selects by the comparison of score lane
`H + i`. -/
theorem blend_avx2_high {α : Type} (x y : Fin H → α) (a b : Fin (2 * H) → Int) (i : Fin H)
    (j : Fin (2 * H)) (hj : j.val = i.val + H) :
    blend 32 x y (_mm256_cvtepi16_epi32 (_mm256_extractf128_si256 (cmpGt a b) 1)) i =
      if b j < a j then y i else x i := by
  have e : (⟨i.val + H, by omega⟩ : Fin (2 * H)) = j := Fin.ext hj.symm
  unfold blend _mm256_cvtepi16_epi32 _mm256_extractf128_si256 cmpGt signExtend16
  simp only [Nat.one_mod, if_true]
  rw [e]
  by_cases h : b j < a j
  · simp [h]
  · simp [h]

/-- SSE3, low half: the unpacked mask selects by the comparison of score lane `i`. -/
theorem blend_sse3_low {α : Type} (x y : Fin H → α) (a b : Fin (2 * H) → Int) (i : Fin H)
    (j : Fin (2 * H)) (hj : j.val = i.val) :
    blend 32 x y (epi16AsEpi32 (_mm_unpacklo_epi16 (cmpGt a b) (cmpGt a b))) i =
      if b j < a j then y i else x i := by
  have e1 : (⟨2 * i.val / 2, by omega⟩ : Fin (2 * H)) = j := Fin.ext (by show 2 * i.val / 2 = j.val; omega)
  have e2 : (⟨(2 * i.val + 1) / 2, by omega⟩ : Fin (2 * H)) = j :=
    Fin.ext (by show (2 * i.val + 1) / 2 = j.val; omega)
  unfold blend epi16AsEpi32 _mm_unpacklo_epi16
  simp only [e1, e2, ite_self]
  unfold cmpGt
  by_cases h : b j < a j
  · simp [h]
  · simp [h]

/-- SSE3, high half: the unpacked mask selects by the comparison of score lane
`H + i`. -/
theorem blend_sse3_high {α : Type} (x y : Fin H → α) (a b : Fin (2 * H) → Int) (i : Fin H)
    (j : Fin (2 * H)) (hj : j.val = i.val + H) :
    blend 32 x y (epi16AsEpi32 (_mm_unpackhi_epi16 (cmpGt a b) (cmpGt a b))) i =
      if b j < a j then y i else x i := by
  have e1 : (⟨H + 2 * i.val / 2, by omega⟩ : Fin (2 * H)) = j :=
    Fin.ext (by show H + 2 * i.val / 2 = j.val; omega)
  have e2 : (⟨H + (2 * i.val + 1) / 2, by omega⟩ : Fin (2 * H)) = j :=
    Fin.ext (by show H + (2 * i.val + 1) / 2 = j.val; omega)
  unfold blend epi16AsEpi32 _mm_unpackhi_epi16
  simp only [e1, e2, ite_self]
  unfold cmpGt
  by_cases h : b j < a j
  · simp [h]
  · simp [h]

variable {g : GapCosts} {TSpec : ScoutSpec}

theorem simd_copy_maxHostPosition (S : Simd.Scout g H TSpec)
    (C : DPCell_ (Fin (2 * H) → Int) g) (cmp : Fin (2 * H) → Nat) :
    (Simd._copySimdCell S C cmp)._maxHostPosition = S._maxHostPosition := by
  cases g <;> rfl

theorem simd_copy_maxHostLow (S : Simd.Scout g H TSpec)
    (C : DPCell_ (Fin (2 * H) → Int) g) (cmp : Fin (2 * H) → Nat) :
    (Simd._copySimdCell S C cmp)._maxHostLow = S._maxHostLow := by
  cases g <;> rfl

theorem simd_copy_maxHostHigh (S : Simd.Scout g H TSpec)
    (C : DPCell_ (Fin (2 * H) → Int) g) (cmp : Fin (2 * H) → Nat) :
    (Simd._copySimdCell S C cmp)._maxHostHigh = S._maxHostHigh := by
  cases g <;> rfl

theorem simd_copy_terminator (S : Simd.Scout g H TSpec)
    (C : DPCell_ (Fin (2 * H) → Int) g) (cmp : Fin (2 * H) → Nat) :
    (Simd._copySimdCell S C cmp).terminator = S.terminator := by
  cases g <;> rfl

/-- Lane `k` of the cell stored by `_copySimdCell` under the comparison mask: the
whole incoming lane when its score is strictly greater, else the whole old lane. -/
theorem simd_copy_lane (S : Simd.Scout g H TSpec) (C : DPCell_ (Fin (2 * H) → Int) g)
    (k : Fin (2 * H)) :
    laneCell k
        (Simd._copySimdCell S C (cmpGt (_scoreOfCell C) (_scoreOfCell S._maxScore)))._maxScore =
      if maxScore S k < _scoreOfCell C k then laneCell k C else laneCell k S._maxScore := by
  cases g <;>
    by_cases h : maxScore S k < _scoreOfCell C k <;>
    simp only [h, if_true, if_false] <;>
    simp only [maxScore] at h <;>
    simp [Simd._copySimdCell, laneCell, DPCell_.map, blend_cmpGt, h]

theorem simd_step_maxScore (arch : SimdArch) (S : Simd.Scout g H TSpec)
    (C : DPCell_ (Fin (2 * H) → Int) g) (p : Nat) (a b : Bool) :
    (Simd._scoutBestScore arch S C p a b)._maxScore =
      (Simd._copySimdCell S C (cmpGt (_scoreOfCell C) (_scoreOfCell S._maxScore)))._maxScore := by
  cases arch <;> rfl

theorem simd_step_maxHostPosition (arch : SimdArch) (S : Simd.Scout g H TSpec)
    (C : DPCell_ (Fin (2 * H) → Int) g) (p : Nat) (a b : Bool) :
    (Simd._scoutBestScore arch S C p a b)._maxHostPosition = S._maxHostPosition := by
  cases arch <;> simp [Simd._scoutBestScore, simd_copy_maxHostPosition]

theorem simd_step_terminator (arch : SimdArch) (S : Simd.Scout g H TSpec)
    (C : DPCell_ (Fin (2 * H) → Int) g) (p : Nat) (a b : Bool) :
    (Simd._scoutBestScore arch S C p a b).terminator = S.terminator := by
  cases arch <;> simp [Simd._scoutBestScore, simd_copy_terminator]

/-- The position lane of alignment `k` after one vectorized update. -/
theorem simd_step_hostLane (arch : SimdArch) (S : Simd.Scout g H TSpec)
    (C : DPCell_ (Fin (2 * H) → Int) g) (p : Nat) (a b : Bool) (k : Fin (2 * H)) :
    Simd.hostLane (Simd._scoutBestScore arch S C p a b) k =
      if maxScore S k < _scoreOfCell C k then p % 2 ^ 32 else Simd.hostLane S k := by
  unfold Simd.hostLane maxScore
  by_cases hk : k.val < H
  · simp only [hk, dif_pos]
    cases arch
    · simp only [Simd._scoutBestScore, simd_copy_maxHostLow]
      rw [blend_avx2_low _ _ _ _ ⟨k.val, hk⟩ k rfl]
      rfl
    · simp only [Simd._scoutBestScore, simd_copy_maxHostLow]
      rw [blend_sse3_low _ _ _ _ ⟨k.val, hk⟩ k rfl]
      rfl
  · simp only [hk, dif_neg, not_false_eq_true]
    have hj : k.val = (k.val - H) + H := by omega
    cases arch
    · simp only [Simd._scoutBestScore, simd_copy_maxHostHigh]
      rw [blend_avx2_high _ _ _ _ ⟨k.val - H, by omega⟩ k hj]
      rfl
    · simp only [Simd._scoutBestScore, simd_copy_maxHostHigh]
      rw [blend_sse3_high _ _ _ _ ⟨k.val - H, by omega⟩ k hj]
      rfl

theorem scoreOfCell_laneCell {n : Nat} (k : Fin n) (c : DPCell_ (Fin n → Int) g) :
    _scoreOfCell (laneCell k c) = _scoreOfCell c k := by
  cases g <;> rfl

theorem simd_scoutCells_cons (arch : SimdArch) (S : Simd.Scout g H TSpec)
    (v : Visit (DPCell_ (Fin (2 * H) → Int) g))
    (vs : List (Visit (DPCell_ (Fin (2 * H) → Int) g))) :
    Simd.scoutCells arch S (v :: vs) =
      Simd.scoutCells arch
        (Simd._scoutBestScore arch S v.activeCell v.position v.isLastColumn v.isLastRow) vs := rfl

theorem simd_step_view (arch : SimdArch) (k : Fin (2 * H)) (S : Simd.Scout g H TSpec)
    (v : Visit (DPCell_ (Fin (2 * H) → Int) g)) :
    (laneCell k
        (Simd._scoutBestScore arch S v.activeCell v.position v.isLastColumn v.isLastRow)._maxScore,
      Simd.hostLane
        (Simd._scoutBestScore arch S v.activeCell v.position v.isLastColumn v.isLastRow) k) =
      if _scoreOfCell (laneCell k S._maxScore, Simd.hostLane S k).1 <
          _scoreOfCell (laneCell k v.activeCell) then
        (laneCell k v.activeCell, v.position % 2 ^ 32)
      else (laneCell k S._maxScore, Simd.hostLane S k) := by
  rw [simd_step_maxScore, simd_copy_lane, simd_step_hostLane, scoreOfCell_laneCell,
    scoreOfCell_laneCell]
  by_cases h : maxScore S k < _scoreOfCell v.activeCell k
  · simp only [maxScore] at h
    simp [maxScore, h]
  · simp only [maxScore] at h
    simp [maxScore, h]

theorem simd_scoutCells_maxHostPosition (arch : SimdArch) (S : Simd.Scout g H TSpec)
    (vs : List (Visit (DPCell_ (Fin (2 * H) → Int) g))) :
    (Simd.scoutCells arch S vs)._maxHostPosition = S._maxHostPosition := by
  induction vs generalizing S with
  | nil => rfl
  | cons v vs ih => rw [simd_scoutCells_cons, ih, simd_step_maxHostPosition]

theorem simd_step_maxScore_lane (arch : SimdArch) (S : Simd.Scout g H TSpec)
    (C : DPCell_ (Fin (2 * H) → Int) g) (p : Nat) (a b : Bool) (k : Fin (2 * H)) :
    maxScore (Simd._scoutBestScore arch S C p a b) k =
      if maxScore S k < _scoreOfCell C k then _scoreOfCell C k else maxScore S k := by
  have h := simd_copy_lane S C k
  rw [← simd_step_maxScore arch S C p a b] at h
  have h2 := congrArg _scoreOfCell h
  rw [scoreOfCell_laneCell] at h2
  unfold maxScore at *
  rw [h2]
  split <;> exact scoreOfCell_laneCell k _

theorem scalar_step_position (s : Scalar.Scout g H TSpec) (c : DPCell_ Int g) (p : Nat)
    (a b : Bool) :
    maxHostPosition (Scalar._scoutBestScore s c p a b) 0 =
      if maxScore s < _scoreOfCell c then p % 2 ^ 32 else maxHostPosition s 0 := by
  by_cases h : maxScore s < _scoreOfCell c
  · rw [if_pos h, scalar_step_of_gt s _ _ _ _ h]
    simp [maxHostPosition]
  · rw [if_neg h, scalar_step_of_le s _ _ _ _ (not_lt.mp h)]

theorem scalar_step_maxScore_ite (s : Scalar.Scout g H TSpec) (c : DPCell_ Int g) (p : Nat)
    (a b : Bool) :
    maxScore (Scalar._scoutBestScore s c p a b) =
      if maxScore s < _scoreOfCell c then _scoreOfCell c else maxScore s := by
  by_cases h : maxScore s < _scoreOfCell c
  · rw [if_pos h, scalar_step_of_gt s _ _ _ _ h]
    rfl
  · rw [if_neg h, scalar_step_of_le s _ _ _ _ (not_lt.mp h)]

/-- Lane `k` of a vectorized traversal against a scalar traversal of the visits of
lane `k`, started with the same score and position. -/
theorem simd_lane_simulates_scalar {H2 : Nat} {TSpec2 : ScoutSpec} (arch : SimdArch)
    (k : Fin (2 * H)) (vs : List (Visit (DPCell_ (Fin (2 * H) → Int) g))) :
    ∀ (S : Simd.Scout g H TSpec) (s : Scalar.Scout g H2 TSpec2),
      maxScore s = maxScore S k → maxHostPosition s 0 = Simd.hostLane S k →
      maxScore (Simd.scoutCells arch S vs) k =
          maxScore (Scalar.scoutCells s (vs.map (Simd.laneVisit k))) ∧
        Simd.hostLane (Simd.scoutCells arch S vs) k =
          maxHostPosition (Scalar.scoutCells s (vs.map (Simd.laneVisit k))) 0 := by
  induction vs with
  | nil =>
    intro S s h1 h2
    exact ⟨h1.symm, h2.symm⟩
  | cons v vs ih =>
    intro S s h1 h2
    rw [simd_scoutCells_cons, List.map_cons, scalar_scoutCells_cons]
    apply ih
    · rw [scalar_step_maxScore_ite, simd_step_maxScore_lane, h1]
      simp [Simd.laneVisit, scoreOfCell_laneCell]
    · rw [scalar_step_position, simd_step_hostLane, h1, h2]
      simp [Simd.laneVisit, scoreOfCell_laneCell]

end SimdLemmas

/-! ## Lemmas on the termination flag and on the specializations -/

section TerminatorLemmas

variable {g : GapCosts} {H : Nat}

theorem scalar_step_terminator {TSpec : ScoutSpec} (s : Scalar.Scout g H TSpec)
    (c : DPCell_ Int g) (p : Nat) (a b : Bool) :
    (Scalar._scoutBestScore s c p a b).terminator = s.terminator := by
  unfold Scalar._scoutBestScore
  split <;> rfl

/-- After any calls on a scalar scout the flag is set exactly when it was set before
or one of the calls was `terminateScout`. -/
theorem scalar_runCalls_flag (s : Scalar.Scout g H .Terminator)
    (calls : List (ScoutCall (DPCell_ Int g))) :
    _terminationCriteriumIsMet (Scalar.runCalls s calls) =
      (_terminationCriteriumIsMet s || calls.any ScoutCall.isTerminate) := by
  induction calls generalizing s with
  | nil => simp [Scalar.runCalls]
  | cons c cs ih =>
    have hcons : Scalar.runCalls s (c :: cs) =
        Scalar.runCalls
          (match c with
            | .update v =>
                Scalar._scoutBestScore s v.activeCell v.position v.isLastColumn v.isLastRow
            | .terminate => terminateScout s) cs := rfl
    rw [hcons, ih]
    cases c with
    | update v =>
      simp [_terminationCriteriumIsMet, scalar_step_terminator, ScoutCall.isTerminate]
    | terminate =>
      simp [_terminationCriteriumIsMet, terminateScout, ScoutCall.isTerminate]

/-- After any calls on a vectorized scout the flag is set exactly when it was set
before or one of the calls was `terminateScout`. -/
theorem simd_runCalls_flag (arch : SimdArch) (s : Simd.Scout g H .Terminator)
    (calls : List (ScoutCall (DPCell_ (Fin (2 * H) → Int) g))) :
    _terminationCriteriumIsMet (Simd.runCalls arch s calls) =
      (_terminationCriteriumIsMet s || calls.any ScoutCall.isTerminate) := by
  induction calls generalizing s with
  | nil => simp [Simd.runCalls]
  | cons c cs ih =>
    have hcons : Simd.runCalls arch s (c :: cs) =
        Simd.runCalls arch
          (match c with
            | .update v =>
                Simd._scoutBestScore arch s v.activeCell v.position v.isLastColumn v.isLastRow
            | .terminate => terminateScout s) cs := rfl
    rw [hcons, ih]
    cases c with
    | update v =>
      simp [_terminationCriteriumIsMet, simd_step_terminator, ScoutCall.isTerminate]
    | terminate =>
      simp [_terminationCriteriumIsMet, terminateScout, ScoutCall.isTerminate]

/-- Scalar traversals of two scouts of any specializations that store the same cell
and the same positions end with the same cell and the same positions. -/
theorem scalar_scoutCells_congr {T1 T2 : ScoutSpec}
    (vs : List (Visit (DPCell_ Int g))) :
    ∀ (s1 : Scalar.Scout g H T1) (s2 : Scalar.Scout g H T2),
      s1._maxScore = s2._maxScore → s1._maxHostPosition = s2._maxHostPosition →
      (Scalar.scoutCells s1 vs)._maxScore = (Scalar.scoutCells s2 vs)._maxScore ∧
        (Scalar.scoutCells s1 vs)._maxHostPosition =
          (Scalar.scoutCells s2 vs)._maxHostPosition := by
  induction vs with
  | nil => intro s1 s2 h1 h2; exact ⟨h1, h2⟩
  | cons v vs ih =>
    intro s1 s2 h1 h2
    rw [scalar_scoutCells_cons, scalar_scoutCells_cons]
    apply ih
    · unfold Scalar._scoutBestScore
      rw [h1]
      split <;> simp [h1]
    · unfold Scalar._scoutBestScore
      rw [h1]
      split <;> simp [h2]

/-- Vectorized traversals of two scouts of any specializations that store the same
cell end with the same cell. -/
theorem simd_scoutCells_congr {T1 T2 : ScoutSpec} (arch : SimdArch)
    (vs : List (Visit (DPCell_ (Fin (2 * H) → Int) g))) :
    ∀ (s1 : Simd.Scout g H T1) (s2 : Simd.Scout g H T2),
      s1._maxScore = s2._maxScore →
      (Simd.scoutCells arch s1 vs)._maxScore = (Simd.scoutCells arch s2 vs)._maxScore := by
  induction vs with
  | nil => intro s1 s2 h1; exact h1
  | cons v vs ih =>
    intro s1 s2 h1
    rw [simd_scoutCells_cons, simd_scoutCells_cons]
    apply ih
    rw [simd_step_maxScore, simd_step_maxScore, h1]
    cases g <;> simp [Simd._copySimdCell, h1]

end TerminatorLemmas

/-! ## Lemmas on the widened mask -/

section WideningLemmas

variable {H : Nat}

theorem signExtend16_allOnes : signExtend16 0xFFFF = 0xFFFFFFFF := by decide

theorem signExtend16_zero : signExtend16 0 = 0 := by decide

/-- The blend of 32-bit lanes under a mask lane that is all-ones or all-zeros. -/
theorem blend32_of_boolean_lane {α : Type} {n : Nat} (a b : Fin n → α) (m : Fin n → Nat)
    (k : Fin n) (hk : m k = 0xFFFFFFFF ∨ m k = 0) :
    blend 32 a b m k = if m k = 0xFFFFFFFF then b k else a k := by
  unfold blend
  rcases hk with h | h <;> rw [h] <;> simp

end WideningLemmas

/-! ## The claims -/

section Claims

variable {g : GapCosts} {H : Nat} {TSpec : ScoutSpec}

/-- C1, the claim refuted: a freshly constructed scout is shown the single score
-2000000000; `maxScore` afterwards is -1073741824, the score of the
default-constructed cell, which is not the maximum of the scores presented: no
score presented equals it. -/
theorem fresh_maxScore_is_not_a_presented_score :
    maxScore (Scalar.scoutCells Example.freshScalar
        (Example.linearVisits [(-2000000000, 0)])) = -1073741824 ∧
    ¬ ((∃ v ∈ Example.linearVisits [(-2000000000, 0)],
          _scoreOfCell v.activeCell =
            maxScore (Scalar.scoutCells Example.freshScalar
              (Example.linearVisits [(-2000000000, 0)]))) ∧
        ∀ v ∈ Example.linearVisits [(-2000000000, 0)],
          _scoreOfCell v.activeCell ≤
            maxScore (Scalar.scoutCells Example.freshScalar
              (Example.linearVisits [(-2000000000, 0)]))) := by
  decide

/-- C1, amended.  After any traversal of a scalar scout, `maxScore` is the maximum of
the score stored before the traversal (for a freshly constructed scout, the score of
the default-constructed cell) and the scores presented: it is the fold of `max`
over them, it is at least each of them, and it is one of them.  So it is the maximum
of the scores presented whenever some presented score is at least the score stored
before. -/
theorem maxScore_is_maximum_of_start_and_presented (s0 : Scalar.Scout g H TSpec)
    (visits : List (Visit (DPCell_ Int g))) :
    maxScore (Scalar.scoutCells s0 visits) =
        (visits.map (fun v => _scoreOfCell v.activeCell)).foldl max (maxScore s0) ∧
    (maxScore s0 ≤ maxScore (Scalar.scoutCells s0 visits) ∧
      (∀ v ∈ visits, _scoreOfCell v.activeCell ≤ maxScore (Scalar.scoutCells s0 visits)) ∧
      (maxScore (Scalar.scoutCells s0 visits) = maxScore s0 ∨
        ∃ v ∈ visits, _scoreOfCell v.activeCell = maxScore (Scalar.scoutCells s0 visits))) ∧
    ((∃ v ∈ visits, maxScore s0 ≤ _scoreOfCell v.activeCell) →
      (∃ v ∈ visits, _scoreOfCell v.activeCell = maxScore (Scalar.scoutCells s0 visits)) ∧
        ∀ v ∈ visits, _scoreOfCell v.activeCell ≤ maxScore (Scalar.scoutCells s0 visits)) := by
  refine ⟨?_, ⟨scalar_maxScore_le_scoutCells s0 visits, scalar_score_le_scoutCells s0 visits,
    scalar_maxScore_scoutCells_mem s0 visits⟩, ?_⟩
  · exact scalar_maxScore_scoutCells_foldl s0 visits
  · intro hfresh
    refine ⟨?_, scalar_score_le_scoutCells s0 visits⟩
    rcases scalar_maxScore_scoutCells_mem s0 visits with h | h
    · obtain ⟨v, hv, hle⟩ := hfresh
      refine ⟨v, hv, le_antisymm (scalar_score_le_scoutCells s0 visits v hv) ?_⟩
      rw [h]
      exact hle
    · exact h

/-- C1, amended, at its witness: a freshly constructed scout visited with the scores
3, 5, 5, 2 has `maxScore` 5, the maximum of the scores presented. -/
theorem maxScore_is_maximum_of_start_and_presented_witness :
    (∃ v ∈ Example.linearVisits [(3, 0), (5, 1), (5, 2), (2, 3)],
        maxScore Example.freshScalar ≤ _scoreOfCell v.activeCell) ∧
      ((∃ v ∈ Example.linearVisits [(3, 0), (5, 1), (5, 2), (2, 3)],
          _scoreOfCell v.activeCell =
            maxScore (Scalar.scoutCells Example.freshScalar
              (Example.linearVisits [(3, 0), (5, 1), (5, 2), (2, 3)]))) ∧
        ∀ v ∈ Example.linearVisits [(3, 0), (5, 1), (5, 2), (2, 3)],
          _scoreOfCell v.activeCell ≤
            maxScore (Scalar.scoutCells Example.freshScalar
              (Example.linearVisits [(3, 0), (5, 1), (5, 2), (2, 3)]))) ∧
      maxScore (Scalar.scoutCells Example.freshScalar
        (Example.linearVisits [(3, 0), (5, 1), (5, 2), (2, 3)])) = 5 :=
  ⟨by decide,
    (maxScore_is_maximum_of_start_and_presented Example.freshScalar
      (Example.linearVisits [(3, 0), (5, 1), (5, 2), (2, 3)])).2.2 (by decide),
    by decide⟩

/-- C2, the claim refuted.  First, a tie with the score stored before: a freshly
constructed scout is shown its own starting score -1073741824 at position 9; the
final maximum is that score, the earliest update with it is at position 9, and
`maxHostPosition(0)` is still the 0 the array held.  Second, a position that does
not fit 32 bits: the score 3 shown at position `2 ^ 32 + 7` is adopted and
`maxHostPosition(0)` is 7. -/
theorem maxHostPosition_is_not_always_the_earliest_maximum :
    (maxScore (Scalar.scoutCells Example.freshScalar
        (Example.linearVisits [(-1073741824, 9)])) = -1073741824 ∧
      ((Example.linearVisits [(-1073741824, 9)]).find?
          (fun v => decide (_scoreOfCell v.activeCell =
            maxScore (Scalar.scoutCells Example.freshScalar
              (Example.linearVisits [(-1073741824, 9)]))))).map (fun v => v.position)
        = some 9 ∧
      maxHostPosition (Scalar.scoutCells Example.freshScalar
        (Example.linearVisits [(-1073741824, 9)])) 0 = 0) ∧
    (maxScore (Scalar.scoutCells Example.freshScalar
        (Example.linearVisits [(3, 2 ^ 32 + 7)])) = 3 ∧
      ((Example.linearVisits [(3, 2 ^ 32 + 7)]).find?
          (fun v => decide (_scoreOfCell v.activeCell =
            maxScore (Scalar.scoutCells Example.freshScalar
              (Example.linearVisits [(3, 2 ^ 32 + 7)]))))).map (fun v => v.position)
        = some (2 ^ 32 + 7) ∧
      maxHostPosition (Scalar.scoutCells Example.freshScalar
        (Example.linearVisits [(3, 2 ^ 32 + 7)])) 0 = 7) := by
  decide

/-- C2, amended.  Ties never update.  After a traversal of a scalar scout in which
some score exceeded the score stored before, `maxHostPosition(0)` is the position,
modulo `2 ^ 32`, of the earliest visit whose score equals the final `maxScore` (the
position itself when it is below `2 ^ 32`); after a traversal in which no score
exceeded the score stored before, the scout is unchanged. -/
theorem maxHostPosition_is_earliest_maximum (s0 : Scalar.Scout g H TSpec)
    (visits : List (Visit (DPCell_ Int g))) :
    ((∃ v ∈ visits, maxScore s0 < _scoreOfCell v.activeCell) →
      ∃ v, visits.find?
            (fun v => decide (_scoreOfCell v.activeCell = maxScore (Scalar.scoutCells s0 visits)))
            = some v ∧
        maxHostPosition (Scalar.scoutCells s0 visits) 0 = v.position % 2 ^ 32 ∧
        (v.position < 2 ^ 32 →
          maxHostPosition (Scalar.scoutCells s0 visits) 0 = v.position)) ∧
    ((∀ v ∈ visits, _scoreOfCell v.activeCell ≤ maxScore s0) →
      Scalar.scoutCells s0 visits = s0) := by
  constructor
  · intro hfresh
    obtain ⟨w, hw, hlt⟩ := hfresh
    have h : maxScore s0 < maxScore (Scalar.scoutCells s0 visits) :=
      lt_of_lt_of_le hlt (scalar_score_le_scoutCells s0 visits w hw)
    obtain ⟨v, hv, hpos⟩ := scalar_position_of_first_max s0 visits h
    refine ⟨v, hv, hpos, ?_⟩
    intro hsmall
    rw [hpos, Nat.mod_eq_of_lt hsmall]
  · intro hle
    apply scalar_scoutCells_eq_self
    rcases scalar_maxScore_scoutCells_mem s0 visits with h | ⟨v, hv, hv2⟩
    · exact h
    · exact le_antisymm (hv2 ▸ hle v hv) (scalar_maxScore_le_scoutCells s0 visits)

/-- C2, amended, at its witnesses: scores 1, 4, 2, 4, 0 at positions 0 to 4 give
`maxScore` 4 at position 1, and scores 3, 5, 5, 2 at positions 0 to 3 give
position 1. -/
theorem maxHostPosition_is_earliest_maximum_witness :
    (∃ v ∈ Example.linearVisits [(1, 0), (4, 1), (2, 2), (4, 3), (0, 4)],
        maxScore Example.freshScalar < _scoreOfCell v.activeCell) ∧
      (∃ v, (Example.linearVisits [(1, 0), (4, 1), (2, 2), (4, 3), (0, 4)]).find?
            (fun v => decide (_scoreOfCell v.activeCell =
              maxScore (Scalar.scoutCells Example.freshScalar
                (Example.linearVisits [(1, 0), (4, 1), (2, 2), (4, 3), (0, 4)]))))
            = some v ∧
          maxHostPosition (Scalar.scoutCells Example.freshScalar
            (Example.linearVisits [(1, 0), (4, 1), (2, 2), (4, 3), (0, 4)])) 0 =
              v.position % 2 ^ 32 ∧
          (v.position < 2 ^ 32 →
            maxHostPosition (Scalar.scoutCells Example.freshScalar
              (Example.linearVisits [(1, 0), (4, 1), (2, 2), (4, 3), (0, 4)])) 0 = v.position)) ∧
      maxScore (Scalar.scoutCells Example.freshScalar
        (Example.linearVisits [(1, 0), (4, 1), (2, 2), (4, 3), (0, 4)])) = 4 ∧
      maxHostPosition (Scalar.scoutCells Example.freshScalar
        (Example.linearVisits [(1, 0), (4, 1), (2, 2), (4, 3), (0, 4)])) 0 = 1 ∧
      maxHostPosition (Scalar.scoutCells Example.freshScalar
        (Example.linearVisits [(3, 0), (5, 1), (5, 2), (2, 3)])) 0 = 1 :=
  ⟨by decide,
    (maxHostPosition_is_earliest_maximum Example.freshScalar
      (Example.linearVisits [(1, 0), (4, 1), (2, 2), (4, 3), (0, 4)])).1 (by decide),
    by decide, by decide, by decide⟩

/-- C3, the claim refuted: a vectorized update at position 10 installs a new score
in an alignment (the stored score was lower), and `maxHostPosition` of that alignment
is still the 0 the array held before, not 10 (the 10 is in the alignment's lane of
`_maxHostLow` / `_maxHostHigh`); so in an AVX2 register of 16 alignments
(alignments 0 and 9) and in an SSE3 register of 8 (alignments 0 and 5). -/
theorem vectorized_maxHostPosition_is_not_paired :
    (maxScore Example.freshAvx2 0 < 1 ∧
      maxScore (Simd._scoutBestScore .avx2 Example.freshAvx2 Example.avx2Cell
        10 false false) 0 = 1 ∧
      maxHostPosition (Simd._scoutBestScore .avx2 Example.freshAvx2 Example.avx2Cell
        10 false false) 0 = 0 ∧
      maxHostPosition (Simd._scoutBestScore .avx2 Example.freshAvx2 Example.avx2Cell
        10 false false) 0 ≠ 10 % 2 ^ 32 ∧
      maxScore Example.freshAvx2 9 < 5 ∧
      maxScore (Simd._scoutBestScore .avx2 Example.freshAvx2 Example.avx2Cell
        10 false false) 9 = 5 ∧
      maxHostPosition (Simd._scoutBestScore .avx2 Example.freshAvx2 Example.avx2Cell
        10 false false) 9 = 0 ∧
      Simd.hostLane (Simd._scoutBestScore .avx2 Example.freshAvx2 Example.avx2Cell
        10 false false) 9 = 10) ∧
    (maxScore Example.freshSse3 0 < 1 ∧
      maxScore (Simd._scoutBestScore .sse3 Example.freshSse3
        { _score := ![1, 5, 0, 0, 0, 4, 0, 0] } 10 false false) 0 = 1 ∧
      maxHostPosition (Simd._scoutBestScore .sse3 Example.freshSse3
        { _score := ![1, 5, 0, 0, 0, 4, 0, 0] } 10 false false) 0 = 0 ∧
      maxHostPosition (Simd._scoutBestScore .sse3 Example.freshSse3
        { _score := ![1, 5, 0, 0, 0, 4, 0, 0] } 10 false false) 0 ≠ 10 % 2 ^ 32 ∧
      maxScore (Simd._scoutBestScore .sse3 Example.freshSse3
        { _score := ![1, 5, 0, 0, 0, 4, 0, 0] } 10 false false) 5 = 4 ∧
      maxHostPosition (Simd._scoutBestScore .sse3 Example.freshSse3
        { _score := ![1, 5, 0, 0, 0, 4, 0, 0] } 10 false false) 5 = 0 ∧
      Simd.hostLane (Simd._scoutBestScore .sse3 Example.freshSse3
        { _score := ![1, 5, 0, 0, 0, 4, 0, 0] } 10 false false) 5 = 10) := by
  decide

/-- C3, amended.  For a scalar scout, after any traversal the stored cell and
`maxHostPosition(0)` are either those the traversal started with, or the cell and
the position (modulo `2 ^ 32`) of one and the same visit: the visit that was adopted
and after which no visit was adopted.  For a vectorized scout the same holds in every
lane `k` for the lane of the stored cell and the position lane of `_maxHostLow` /
`_maxHostHigh`. -/
theorem stored_position_paired_with_stored_cell {H2 : Nat} {TSpec2 : ScoutSpec}
    (arch : SimdArch) (s0 : Scalar.Scout g H TSpec) (visits : List (Visit (DPCell_ Int g)))
    (S0 : Simd.Scout g H2 TSpec2) (Visits : List (Visit (DPCell_ (Fin (2 * H2) → Int) g)))
    (k : Fin (2 * H2)) :
    (((Scalar.scoutCells s0 visits)._maxScore = s0._maxScore ∧
        maxHostPosition (Scalar.scoutCells s0 visits) 0 = maxHostPosition s0 0) ∨
      ∃ pre v post, visits = pre ++ v :: post ∧
        maxScore (Scalar.scoutCells s0 pre) < _scoreOfCell v.activeCell ∧
        (∀ w ∈ post, _scoreOfCell w.activeCell ≤ _scoreOfCell v.activeCell) ∧
        (Scalar.scoutCells s0 visits)._maxScore = v.activeCell ∧
        maxHostPosition (Scalar.scoutCells s0 visits) 0 = v.position % 2 ^ 32) ∧
    ((laneCell k (Simd.scoutCells arch S0 Visits)._maxScore = laneCell k S0._maxScore ∧
        Simd.hostLane (Simd.scoutCells arch S0 Visits) k = Simd.hostLane S0 k) ∨
      ∃ (pre : List (Visit (DPCell_ (Fin (2 * H2) → Int) g)))
          (v : Visit (DPCell_ (Fin (2 * H2) → Int) g))
          (post : List (Visit (DPCell_ (Fin (2 * H2) → Int) g))), Visits = pre ++ v :: post ∧
        maxScore (Simd.scoutCells arch S0 pre) k < _scoreOfCell v.activeCell k ∧
        (∀ w ∈ post, _scoreOfCell w.activeCell k ≤ _scoreOfCell v.activeCell k) ∧
        laneCell k (Simd.scoutCells arch S0 Visits)._maxScore = laneCell k v.activeCell ∧
        Simd.hostLane (Simd.scoutCells arch S0 Visits) k = v.position % 2 ^ 32) := by
  constructor
  · rcases tracked_pair_installed _scoreOfCell
        (fun s : Scalar.Scout g H TSpec => (s._maxScore, maxHostPosition s 0))
        (fun s v => Scalar._scoutBestScore s v.activeCell v.position v.isLastColumn v.isLastRow)
        (fun v => v.activeCell) (fun v => v.position) scalar_step_view s0 visits
      with h | ⟨pre, v, post, hvs, hlt, hpost, hview⟩
    · left
      exact ⟨congrArg Prod.fst h, congrArg Prod.snd h⟩
    · right
      exact ⟨pre, v, post, hvs, hlt, hpost, congrArg Prod.fst hview, congrArg Prod.snd hview⟩
  · rcases tracked_pair_installed _scoreOfCell
        (fun S : Simd.Scout g H2 TSpec2 => (laneCell k S._maxScore, Simd.hostLane S k))
        (fun S v =>
          Simd._scoutBestScore arch S v.activeCell v.position v.isLastColumn v.isLastRow)
        (fun v => laneCell k v.activeCell) (fun v => v.position) (simd_step_view arch k)
        S0 Visits
      with h | ⟨pre, v, post, hvs, hlt, hpost, hview⟩
    · left
      exact ⟨congrArg Prod.fst h, congrArg Prod.snd h⟩
    · right
      refine ⟨pre, v, post, hvs, ?_, ?_, congrArg Prod.fst hview, congrArg Prod.snd hview⟩
      · simpa [scoreOfCell_laneCell, maxScore] using hlt
      · intro w hw
        simpa [scoreOfCell_laneCell] using hpost w hw

/-- C4, the claim refuted, at the two-lane scenario (lane 0 scores 1 then 3, lane 1
scores 5 then 2, at positions 10 then 11), first with two lanes, then inside an SSE3
register of 8 alignments: the scalar scout of lane 0 ends with score 3 at position
11 and that of lane 1 with score 5 at position 10; the vectorized scout ends with
the same scores, but its `maxHostPosition(0)` and `maxHostPosition(1)` are still the
0 the array held before the updates. -/
theorem vectorized_maxHostPosition_differs_from_scalar :
    ((maxScore (Scalar.scoutCells Example.freshLane
          (Example.twoLaneVisits.map (Simd.laneVisit 0))) = 3 ∧
        maxHostPosition (Scalar.scoutCells Example.freshLane
          (Example.twoLaneVisits.map (Simd.laneVisit 0))) 0 = 11 ∧
        maxScore (Simd.scoutCells .avx2 Example.freshSimd Example.twoLaneVisits) 0 = 3 ∧
        maxHostPosition (Simd.scoutCells .avx2 Example.freshSimd Example.twoLaneVisits) 0 = 0 ∧
        maxHostPosition (Simd.scoutCells .sse3 Example.freshSimd Example.twoLaneVisits) 0 = 0) ∧
      (maxScore (Scalar.scoutCells Example.freshLane
          (Example.twoLaneVisits.map (Simd.laneVisit 1))) = 5 ∧
        maxHostPosition (Scalar.scoutCells Example.freshLane
          (Example.twoLaneVisits.map (Simd.laneVisit 1))) 0 = 10 ∧
        maxScore (Simd.scoutCells .avx2 Example.freshSimd Example.twoLaneVisits) 1 = 5 ∧
        maxHostPosition (Simd.scoutCells .avx2 Example.freshSimd Example.twoLaneVisits) 1 = 0 ∧
        maxHostPosition (Simd.scoutCells .sse3 Example.freshSimd Example.twoLaneVisits) 1 = 0)) ∧
    ((maxScore (Scalar.scoutCells Example.freshLane
          (Example.sse3Visits.map (Simd.laneVisit 0))) = 3 ∧
        maxHostPosition (Scalar.scoutCells Example.freshLane
          (Example.sse3Visits.map (Simd.laneVisit 0))) 0 = 11 ∧
        maxScore (Simd.scoutCells .sse3 Example.freshSse3 Example.sse3Visits) 0 = 3 ∧
        maxHostPosition (Simd.scoutCells .sse3 Example.freshSse3 Example.sse3Visits) 0 = 0) ∧
      (maxScore (Scalar.scoutCells Example.freshLane
          (Example.sse3Visits.map (Simd.laneVisit 1))) = 5 ∧
        maxHostPosition (Scalar.scoutCells Example.freshLane
          (Example.sse3Visits.map (Simd.laneVisit 1))) 0 = 10 ∧
        maxScore (Simd.scoutCells .sse3 Example.freshSse3 Example.sse3Visits) 1 = 5 ∧
        maxHostPosition (Simd.scoutCells .sse3 Example.freshSse3 Example.sse3Visits) 1 = 0)) := by
  decide

/-- C4, amended.  For every lane count `2 * H`, every lane `k` and every traversal,
the vectorized scout has in lane `k` the `maxScore` of a scalar scout run over the
visits of lane `k` alone, and the position lane `k` of `_maxHostLow` / `_maxHostHigh`
holds that scalar scout's `maxHostPosition(0)`, when the scalar scout starts with the
stored score and the stored position of lane `k`. -/
theorem vectorized_lane_equals_scalar_scout {H2 : Nat} {TSpec2 : ScoutSpec} (arch : SimdArch)
    (S0 : Simd.Scout g H TSpec) (visits : List (Visit (DPCell_ (Fin (2 * H) → Int) g)))
    (k : Fin (2 * H)) (s0 : Scalar.Scout g H2 TSpec2)
    (hscore : maxScore s0 = maxScore S0 k)
    (hposition : maxHostPosition s0 0 = Simd.hostLane S0 k) :
    maxScore (Simd.scoutCells arch S0 visits) k =
        maxScore (Scalar.scoutCells s0 (visits.map (Simd.laneVisit k))) ∧
      Simd.hostLane (Simd.scoutCells arch S0 visits) k =
        maxHostPosition (Scalar.scoutCells s0 (visits.map (Simd.laneVisit k))) 0 :=
  simd_lane_simulates_scalar arch k visits S0 s0 hscore hposition

/-- C4, amended, at the two-lane scenario (lane 0 ends with score 3 and position
lane 11, lane 1 with score 5 and position lane 10) and at alignment 5 of an SSE3
register, which is kept in `_maxHostHigh` (score 6, position lane 11). -/
theorem vectorized_lane_equals_scalar_scout_witness :
    (maxScore Example.freshLane = maxScore Example.freshSimd 0 ∧
      maxHostPosition Example.freshLane 0 = Simd.hostLane Example.freshSimd 0) ∧
    (maxScore (Simd.scoutCells .avx2 Example.freshSimd Example.twoLaneVisits) 0 =
        maxScore (Scalar.scoutCells Example.freshLane
          (Example.twoLaneVisits.map (Simd.laneVisit 0))) ∧
      Simd.hostLane (Simd.scoutCells .avx2 Example.freshSimd Example.twoLaneVisits) 0 =
        maxHostPosition (Scalar.scoutCells Example.freshLane
          (Example.twoLaneVisits.map (Simd.laneVisit 0))) 0) ∧
    (maxScore (Simd.scoutCells .sse3 Example.freshSse3 Example.sse3Visits) 5 =
        maxScore (Scalar.scoutCells Example.freshLane
          (Example.sse3Visits.map (Simd.laneVisit 5))) ∧
      Simd.hostLane (Simd.scoutCells .sse3 Example.freshSse3 Example.sse3Visits) 5 =
        maxHostPosition (Scalar.scoutCells Example.freshLane
          (Example.sse3Visits.map (Simd.laneVisit 5))) 0) ∧
    (maxScore (Simd.scoutCells .avx2 Example.freshSimd Example.twoLaneVisits) 0 = 3 ∧
      Simd.hostLane (Simd.scoutCells .avx2 Example.freshSimd Example.twoLaneVisits) 0 = 11 ∧
      maxScore (Simd.scoutCells .avx2 Example.freshSimd Example.twoLaneVisits) 1 = 5 ∧
      Simd.hostLane (Simd.scoutCells .avx2 Example.freshSimd Example.twoLaneVisits) 1 = 10 ∧
      maxScore (Simd.scoutCells .sse3 Example.freshSse3 Example.sse3Visits) 5 = 6 ∧
      Simd.hostLane (Simd.scoutCells .sse3 Example.freshSse3 Example.sse3Visits) 5 = 11) :=
  ⟨by decide,
    vectorized_lane_equals_scalar_scout .avx2 Example.freshSimd Example.twoLaneVisits 0
      Example.freshLane (by decide) (by decide),
    vectorized_lane_equals_scalar_scout .sse3 Example.freshSse3 Example.sse3Visits 5
      Example.freshLane (by decide) (by decide),
    by decide⟩

/-- C5, the claim refuted, in an SSE3 register of 8 alignments that stores the
affine cell (2, 0, 0) in every lane.  An update at position 9 brings the score 7 to
alignment 0: the mask of the lane is true and the stored score of the lane is the
new 7, while `maxHostPosition(0)` is still the 4 the array held, a stale position.
And the position lane of `_maxHostLow` does not take the incoming position when that
is `2 ^ 32 + 7`: it holds 7. -/
theorem vectorized_update_leaves_maxHostPosition_stale :
    (maxScore Example.affineSse3 0 < _scoreOfCell Example.affineCell8 0 ∧
      maxScore (Simd._scoutBestScore .sse3 Example.affineSse3 Example.affineCell8
        9 false false) 0 = 7 ∧
      maxHostPosition (Simd._scoutBestScore .sse3 Example.affineSse3 Example.affineCell8
        9 false false) 0 = 4 ∧
      maxHostPosition (Simd._scoutBestScore .sse3 Example.affineSse3 Example.affineCell8
        9 false false) 0 ≠ 9) ∧
    (Simd.hostLane (Simd._scoutBestScore .sse3 Example.affineSse3 Example.affineCell8
        (2 ^ 32 + 7) false false) 0 = 7 ∧
      Simd.hostLane (Simd._scoutBestScore .sse3 Example.affineSse3 Example.affineCell8
        (2 ^ 32 + 7) false false) 0 ≠ 2 ^ 32 + 7) := by
  decide

/-- C5, amended.  One vectorized update, for any of the three gap-cost models and any
lane `k`: when the incoming score of the lane is strictly greater than the stored
one, every field of the lane's stored cell is the incoming field and the lane's
position lane of `_maxHostLow` / `_maxHostHigh` is the incoming position modulo
`2 ^ 32`; otherwise every field and the position lane are what they were.  The array
`_maxHostPosition`, which `maxHostPosition(lane)` returns, is what it was in both
cases. -/
theorem vectorized_update_moves_cell_and_position_together (g : GapCosts) (H : Nat)
    (TSpec : ScoutSpec) (arch : SimdArch) (S : Simd.Scout g H TSpec)
    (C : DPCell_ (Fin (2 * H) → Int) g) (p : Nat) (a b : Bool) (k : Fin (2 * H)) :
    (maxScore S k < _scoreOfCell C k →
      laneCell k (Simd._scoutBestScore arch S C p a b)._maxScore = laneCell k C ∧
        Simd.hostLane (Simd._scoutBestScore arch S C p a b) k = p % 2 ^ 32) ∧
    (¬ maxScore S k < _scoreOfCell C k →
      laneCell k (Simd._scoutBestScore arch S C p a b)._maxScore = laneCell k S._maxScore ∧
        Simd.hostLane (Simd._scoutBestScore arch S C p a b) k = Simd.hostLane S k) ∧
    maxHostPosition (Simd._scoutBestScore arch S C p a b) k = maxHostPosition S k := by
  refine ⟨?_, ?_, ?_⟩
  · intro h
    rw [simd_step_maxScore, simd_copy_lane, simd_step_hostLane, if_pos h, if_pos h]
    exact ⟨rfl, rfl⟩
  · intro h
    rw [simd_step_maxScore, simd_copy_lane, simd_step_hostLane, if_neg h, if_neg h]
    exact ⟨rfl, rfl⟩
  · unfold maxHostPosition
    rw [simd_step_maxHostPosition]

/-- C5, amended, at an affine update at position 9 in an SSE3 register: alignment 0
(7 > 2) takes the whole incoming cell and the position in its lane of `_maxHostLow`,
alignment 5 (9 > 2) in its lane of `_maxHostHigh`, and alignment 1 (1 ≤ 2) keeps
its cell and its position lane. -/
theorem vectorized_update_moves_cell_and_position_together_witness :
    (laneCell 0 (Simd._scoutBestScore .sse3 Example.affineSse3 Example.affineCell8
        9 false false)._maxScore = laneCell 0 Example.affineCell8 ∧
      Simd.hostLane (Simd._scoutBestScore .sse3 Example.affineSse3 Example.affineCell8
        9 false false) 0 = 9 % 2 ^ 32) ∧
    (laneCell 5 (Simd._scoutBestScore .sse3 Example.affineSse3 Example.affineCell8
        9 false false)._maxScore = laneCell 5 Example.affineCell8 ∧
      Simd.hostLane (Simd._scoutBestScore .sse3 Example.affineSse3 Example.affineCell8
        9 false false) 5 = 9 % 2 ^ 32) ∧
    (laneCell 1 (Simd._scoutBestScore .sse3 Example.affineSse3 Example.affineCell8
        9 false false)._maxScore = laneCell 1 Example.affineSse3._maxScore ∧
      Simd.hostLane (Simd._scoutBestScore .sse3 Example.affineSse3 Example.affineCell8
        9 false false) 1 = Simd.hostLane Example.affineSse3 1) :=
  ⟨(vectorized_update_moves_cell_and_position_together .AffineGaps 4 .Default .sse3
      Example.affineSse3 Example.affineCell8 9 false false 0).1 (by decide),
    (vectorized_update_moves_cell_and_position_together .AffineGaps 4 .Default .sse3
      Example.affineSse3 Example.affineCell8 9 false false 5).1 (by decide),
    (vectorized_update_moves_cell_and_position_together .AffineGaps 4 .Default .sse3
      Example.affineSse3 Example.affineCell8 9 false false 1).2.1 (by decide)⟩

/-- C6. Affine model: an update whose score is strictly greater than the stored
score leaves the stored score, horizontal score and vertical score equal to those
of the incoming cell, in the scalar update and in every lane of the vectorized
update. -/
theorem affine_update_replaces_all_three_fields {H2 : Nat} {TSpec2 : ScoutSpec}
    (arch : SimdArch) (s : Scalar.Scout .AffineGaps H TSpec) (c : DPCell_ Int .AffineGaps)
    (p : Nat) (a b : Bool) (S : Simd.Scout .AffineGaps H2 TSpec2)
    (C : DPCell_ (Fin (2 * H2) → Int) .AffineGaps) (P : Nat) (A B : Bool) (k : Fin (2 * H2)) :
    (maxScore s < _scoreOfCell c →
      AffineCell._score (Scalar._scoutBestScore s c p a b)._maxScore = AffineCell._score c ∧
      AffineCell._horizontalScore (Scalar._scoutBestScore s c p a b)._maxScore =
        AffineCell._horizontalScore c ∧
      AffineCell._verticalScore (Scalar._scoutBestScore s c p a b)._maxScore =
        AffineCell._verticalScore c) ∧
    (maxScore S k < _scoreOfCell C k →
      AffineCell._score (Simd._scoutBestScore arch S C P A B)._maxScore k =
        AffineCell._score C k ∧
      AffineCell._horizontalScore (Simd._scoutBestScore arch S C P A B)._maxScore k =
        AffineCell._horizontalScore C k ∧
      AffineCell._verticalScore (Simd._scoutBestScore arch S C P A B)._maxScore k =
        AffineCell._verticalScore C k) := by
  constructor
  · intro h
    rw [scalar_step_of_gt s c p a b h]
    exact ⟨rfl, rfl, rfl⟩
  · intro h
    have hl := simd_copy_lane S C k
    rw [← simd_step_maxScore arch S C P A B, if_pos h] at hl
    exact ⟨congrArg AffineCell._score hl, congrArg AffineCell._horizontalScore hl,
      congrArg AffineCell._verticalScore hl⟩

/-- C6 at a scalar update of the stored cell (2, 0, 0) with the cell (7, -3, 5) and
at lane 0 of the same update in a two-lane scout: all three fields are replaced. -/
theorem affine_update_replaces_all_three_fields_witness :
    (AffineCell._score (Scalar._scoutBestScore Example.affineScalar
        { _score := 7, _horizontalScore := -3, _verticalScore := 5 } 9 false false)._maxScore
        = 7 ∧
      AffineCell._horizontalScore (Scalar._scoutBestScore Example.affineScalar
        { _score := 7, _horizontalScore := -3, _verticalScore := 5 } 9 false false)._maxScore
        = -3 ∧
      AffineCell._verticalScore (Scalar._scoutBestScore Example.affineScalar
        { _score := 7, _horizontalScore := -3, _verticalScore := 5 } 9 false false)._maxScore
        = 5) ∧
    (AffineCell._score (Simd._scoutBestScore .avx2 Example.affineSimd Example.affineCell2
        9 false false)._maxScore 0 = AffineCell._score Example.affineCell2 0 ∧
      AffineCell._horizontalScore (Simd._scoutBestScore .avx2 Example.affineSimd
        Example.affineCell2 9 false false)._maxScore 0 =
          AffineCell._horizontalScore Example.affineCell2 0 ∧
      AffineCell._verticalScore (Simd._scoutBestScore .avx2 Example.affineSimd
        Example.affineCell2 9 false false)._maxScore 0 =
          AffineCell._verticalScore Example.affineCell2 0) :=
  ⟨(affine_update_replaces_all_three_fields .avx2 Example.affineScalar
      { _score := 7, _horizontalScore := -3, _verticalScore := 5 } 9 false false
      Example.affineSimd Example.affineCell2 9 false false 0).1 (by decide),
    (affine_update_replaces_all_three_fields .avx2 Example.affineScalar
      { _score := 7, _horizontalScore := -3, _verticalScore := 5 } 9 false false
      Example.affineSimd Example.affineCell2 9 false false 0).2 (by decide)⟩

/-- C7. On a terminator scout the flag is false after either constructor; an update
(scalar or vectorized) leaves the flag as it is; hence after any interleaving of
updates and `terminateScout` calls on a freshly constructed scout
`_terminationCriteriumIsMet` is true exactly when `terminateScout` is among the
calls; and a flag that is set stays set through any further calls. -/
theorem termination_flag_follows_terminateScout {TDPCell : Type} {LENGTH H0 : Nat}
    (arch : SimdArch) (dflt0 : TDPCell) (mem0 : DPScout_ TDPCell LENGTH H0 .Terminator)
    (dflt : DPCell_ Int g) (mem : Scalar.Scout g H .Terminator)
    (dfltV : DPCell_ (Fin (2 * H) → Int) g) (memV : Simd.Scout g H .Terminator)
    (stateAddr : Nat) :
    (_terminationCriteriumIsMet (DPScout_.ctorTerminator dflt0 mem0) = false ∧
      _terminationCriteriumIsMet (DPScout_.ctorTerminatorState dflt0 mem0 stateAddr) = false) ∧
    ((∀ (s : Scalar.Scout g H .Terminator) c p a b,
        _terminationCriteriumIsMet (Scalar._scoutBestScore s c p a b) =
          _terminationCriteriumIsMet s) ∧
      (∀ (s : Simd.Scout g H .Terminator) c p a b,
        _terminationCriteriumIsMet (Simd._scoutBestScore arch s c p a b) =
          _terminationCriteriumIsMet s)) ∧
    ((∀ calls, _terminationCriteriumIsMet
          (Scalar.runCalls (DPScout_.ctorTerminator dflt mem) calls) =
            calls.any ScoutCall.isTerminate) ∧
      (∀ calls, _terminationCriteriumIsMet
          (Scalar.runCalls (DPScout_.ctorTerminatorState dflt mem stateAddr) calls) =
            calls.any ScoutCall.isTerminate) ∧
      (∀ calls, _terminationCriteriumIsMet
          (Simd.runCalls arch (DPScout_.ctorTerminator dfltV memV) calls) =
            calls.any ScoutCall.isTerminate) ∧
      (∀ calls, _terminationCriteriumIsMet
          (Simd.runCalls arch (DPScout_.ctorTerminatorState dfltV memV stateAddr) calls) =
            calls.any ScoutCall.isTerminate)) ∧
    ((∀ (s : Scalar.Scout g H .Terminator) calls, _terminationCriteriumIsMet s = true →
        _terminationCriteriumIsMet (Scalar.runCalls s calls) = true) ∧
      (∀ (s : Simd.Scout g H .Terminator) calls, _terminationCriteriumIsMet s = true →
        _terminationCriteriumIsMet (Simd.runCalls arch s calls) = true)) := by
  refine ⟨⟨rfl, rfl⟩, ⟨?_, ?_⟩, ⟨?_, ?_, ?_, ?_⟩, ⟨?_, ?_⟩⟩
  · intro s c p a b
    simp [_terminationCriteriumIsMet, scalar_step_terminator]
  · intro s c p a b
    simp [_terminationCriteriumIsMet, simd_step_terminator]
  · intro calls
    rw [scalar_runCalls_flag]
    simp [_terminationCriteriumIsMet, DPScout_.ctorTerminator]
  · intro calls
    rw [scalar_runCalls_flag]
    simp [_terminationCriteriumIsMet, DPScout_.ctorTerminatorState]
  · intro calls
    rw [simd_runCalls_flag]
    simp [_terminationCriteriumIsMet, DPScout_.ctorTerminator]
  · intro calls
    rw [simd_runCalls_flag]
    simp [_terminationCriteriumIsMet, DPScout_.ctorTerminatorState]
  · intro s calls h
    rw [scalar_runCalls_flag, h]
    rfl
  · intro s calls h
    rw [simd_runCalls_flag, h]
    rfl

/-- C8. `terminateScout` is idempotent, sets the flag whatever it was, and leaves the
stored cell, the stored positions (the array and both SIMD halves) and the state
pointer unchanged. -/
theorem terminateScout_idempotent_and_changes_only_flag {TDPCell : Type} {LENGTH H0 : Nat}
    (s : DPScout_ TDPCell LENGTH H0 .Terminator) :
    terminateScout (terminateScout s) = terminateScout s ∧
    _terminationCriteriumIsMet (terminateScout s) = true ∧
    (terminateScout s)._maxScore = s._maxScore ∧
    (terminateScout s)._maxHostPosition = s._maxHostPosition ∧
    (terminateScout s)._maxHostLow = s._maxHostLow ∧
    (terminateScout s)._maxHostHigh = s._maxHostHigh ∧
    (terminateScout s).terminator.state = s.terminator.state :=
  ⟨rfl, rfl, rfl, rfl, rfl, rfl, rfl⟩

/-- C9, the claim refuted.  The scalar terminator scout `terminatedScalar` and the
default scout `defaultScalarAt7` store the same cell; shown the score 1 at position
9, which neither adopts, they return the positions 4 and 7.  The SSE3 terminator
scout `terminatorSse3At5` and the default scout `freshSse3` store the same cell;
after the same two updates they return the positions 5 and 0 for alignment 0. -/
theorem same_stored_cell_does_not_give_same_position :
    (Example.terminatedScalar._maxScore = Example.defaultScalarAt7._maxScore ∧
      maxHostPosition (Scalar.scoutCells Example.terminatedScalar
        (Example.linearVisits [(1, 9)])) 0 = 4 ∧
      maxHostPosition (Scalar.scoutCells Example.defaultScalarAt7
        (Example.linearVisits [(1, 9)])) 0 = 7) ∧
    (Example.terminatorSse3At5._maxScore = Example.freshSse3._maxScore ∧
      maxHostPosition (Simd.scoutCells .sse3 Example.terminatorSse3At5 Example.sse3Visits) 0
        = 5 ∧
      maxHostPosition (Simd.scoutCells .sse3 Example.freshSse3 Example.sse3Visits) 0 = 0) :=
  ⟨⟨rfl, by decide, by decide⟩, ⟨rfl, by decide, by decide⟩⟩

/-- C9, amended.  A terminator scout and a default scout that start with the same
stored cell and the same stored positions return, after the same traversal, the same `maxScore`
and the same `maxHostPosition(lane)` for every lane, whatever the flag and the state
pointer of the terminator scout; so in the scalar and in the vectorized update. -/
theorem terminator_scout_behaves_as_default_scout {H2 : Nat} (arch : SimdArch)
    (d : Scalar.Scout g H .Default) (t : Scalar.Scout g H .Terminator)
    (visits : List (Visit (DPCell_ Int g)))
    (D : Simd.Scout g H2 .Default) (T : Simd.Scout g H2 .Terminator)
    (Visits : List (Visit (DPCell_ (Fin (2 * H2) → Int) g)))
    (hcell : t._maxScore = d._maxScore) (hpos : t._maxHostPosition = d._maxHostPosition)
    (hCell : T._maxScore = D._maxScore) (hPos : T._maxHostPosition = D._maxHostPosition) :
    (maxScore (Scalar.scoutCells t visits) = maxScore (Scalar.scoutCells d visits) ∧
      ∀ lane, maxHostPosition (Scalar.scoutCells t visits) lane =
        maxHostPosition (Scalar.scoutCells d visits) lane) ∧
    (maxScore (Simd.scoutCells arch T Visits) = maxScore (Simd.scoutCells arch D Visits) ∧
      ∀ lane, maxHostPosition (Simd.scoutCells arch T Visits) lane =
        maxHostPosition (Simd.scoutCells arch D Visits) lane) := by
  obtain ⟨h1, h2⟩ := scalar_scoutCells_congr visits t d hcell hpos
  have h3 := simd_scoutCells_congr arch Visits T D hCell
  refine ⟨⟨?_, ?_⟩, ⟨?_, ?_⟩⟩
  · unfold maxScore
    rw [h1]
  · intro lane
    unfold maxHostPosition
    rw [h2]
  · unfold maxScore
    rw [h3]
  · intro lane
    unfold maxHostPosition
    rw [simd_scoutCells_maxHostPosition, simd_scoutCells_maxHostPosition, hPos]

/-- C9, amended, at a terminated scalar scout with a bound state and at a two-lane terminator
scout without one, each beside the default scout with the same cell and positions. -/
theorem terminator_scout_behaves_as_default_scout_witness :
    (Example.terminatedScalar._maxScore = Example.defaultScalar._maxScore ∧
      Example.terminatedScalar._maxHostPosition = Example.defaultScalar._maxHostPosition ∧
      Example.terminatorSimd._maxScore = Example.freshSimd._maxScore ∧
      Example.terminatorSimd._maxHostPosition = Example.freshSimd._maxHostPosition) ∧
    ((maxScore (Scalar.scoutCells Example.terminatedScalar
          (Example.linearVisits [(3, 0), (5, 1), (5, 2), (2, 3)])) =
        maxScore (Scalar.scoutCells Example.defaultScalar
          (Example.linearVisits [(3, 0), (5, 1), (5, 2), (2, 3)])) ∧
      ∀ lane, maxHostPosition (Scalar.scoutCells Example.terminatedScalar
          (Example.linearVisits [(3, 0), (5, 1), (5, 2), (2, 3)])) lane =
        maxHostPosition (Scalar.scoutCells Example.defaultScalar
          (Example.linearVisits [(3, 0), (5, 1), (5, 2), (2, 3)])) lane) ∧
    (maxScore (Simd.scoutCells .avx2 Example.terminatorSimd Example.twoLaneVisits) =
        maxScore (Simd.scoutCells .avx2 Example.freshSimd Example.twoLaneVisits) ∧
      ∀ lane, maxHostPosition (Simd.scoutCells .avx2 Example.terminatorSimd
          Example.twoLaneVisits) lane =
        maxHostPosition (Simd.scoutCells .avx2 Example.freshSimd Example.twoLaneVisits) lane)) :=
  ⟨⟨rfl, rfl, rfl, rfl⟩,
    terminator_scout_behaves_as_default_scout .avx2 Example.defaultScalar
      Example.terminatedScalar (Example.linearVisits [(3, 0), (5, 1), (5, 2), (2, 3)])
      Example.freshSimd Example.terminatorSimd Example.twoLaneVisits rfl rfl rfl rfl⟩

/-- C10. The update does not branch on the two tags: the five-argument
`_scoutBestScore` returns the same scout for every pair of tags, and the four- and
three-argument overloads return what the five-argument one returns with the omitted
tags false; so for the scalar and for the vectorized update. -/
theorem update_does_not_branch_on_last_flags (arch : SimdArch)
    (s : Scalar.Scout g H TSpec) (c : DPCell_ Int g) (p : Nat)
    (S : Simd.Scout g H TSpec) (C : DPCell_ (Fin (2 * H) → Int) g) (P : Nat)
    (isLastColumn isLastRow isLastColumn2 isLastRow2 : Bool) :
    (Scalar._scoutBestScore s c p isLastColumn isLastRow =
        Scalar._scoutBestScore s c p isLastColumn2 isLastRow2 ∧
      Scalar._scoutBestScore4 s c p isLastColumn =
        Scalar._scoutBestScore s c p isLastColumn false ∧
      Scalar._scoutBestScore3 s c p = Scalar._scoutBestScore s c p false false) ∧
    (Simd._scoutBestScore arch S C P isLastColumn isLastRow =
        Simd._scoutBestScore arch S C P isLastColumn2 isLastRow2 ∧
      Simd._scoutBestScore4 arch S C P isLastColumn =
        Simd._scoutBestScore arch S C P isLastColumn false ∧
      Simd._scoutBestScore3 arch S C P = Simd._scoutBestScore arch S C P false false) :=
  ⟨⟨rfl, rfl, rfl⟩, ⟨rfl, rfl, rfl⟩⟩

/-- C11. The queries are read-only.  `maxScore` returns the score of the stored cell,
`maxHostPosition(lane)` the entry of the position array for every lane below the
lane count, `_terminationCriteriumIsMet` the flag; after a call of any of the three
the scout is the scout before the call, so a query repeated after any of them
returns the value it returned before. -/
theorem queries_are_read_only {α : Type} {LENGTH : Nat}
    (s : DPScout_ (DPCell_ α g) LENGTH H TSpec) (t : DPScout_ (DPCell_ α g) LENGTH H .Terminator)
    (lane : Fin LENGTH) :
    ((maxScoreCall s).1 = _scoreOfCell s._maxScore ∧
      (maxHostPositionCall s lane).1 = s._maxHostPosition lane ∧
      (_terminationCriteriumIsMetCall t).1 = t.terminator.terminationCriteriumMet) ∧
    ((maxScoreCall s).2 = s ∧ (maxHostPositionCall s lane).2 = s ∧
      (maxScoreCall t).2 = t ∧ (maxHostPositionCall t lane).2 = t ∧
      (_terminationCriteriumIsMetCall t).2 = t) ∧
    ((maxScoreCall (maxScoreCall s).2).1 = (maxScoreCall s).1 ∧
      (maxScoreCall (maxHostPositionCall s lane).2).1 = (maxScoreCall s).1 ∧
      (maxHostPositionCall (maxHostPositionCall s lane).2 lane).1 =
        (maxHostPositionCall s lane).1 ∧
      (maxHostPositionCall (maxScoreCall s).2 lane).1 = (maxHostPositionCall s lane).1 ∧
      (_terminationCriteriumIsMetCall (_terminationCriteriumIsMetCall t).2).1 =
        (_terminationCriteriumIsMetCall t).1 ∧
      (_terminationCriteriumIsMetCall (maxScoreCall t).2).1 =
        (_terminationCriteriumIsMetCall t).1 ∧
      (_terminationCriteriumIsMetCall (maxHostPositionCall t lane).2).1 =
        (_terminationCriteriumIsMetCall t).1 ∧
      (maxScoreCall (_terminationCriteriumIsMetCall t).2).1 = (maxScoreCall t).1 ∧
      (maxHostPositionCall (_terminationCriteriumIsMetCall t).2 lane).1 =
        (maxHostPositionCall t lane).1) :=
  ⟨⟨rfl, rfl, rfl⟩, ⟨rfl, rfl, rfl, rfl, rfl⟩, ⟨rfl, rfl, rfl, rfl, rfl, rfl, rfl, rfl, rfl⟩⟩

/-- C12. A terminator scout built by the default constructor has a null state
pointer, `_terminationCriteriumIsMet` returns false on it, and `terminateScout`
makes it return true and leaves the pointer null.  No operation depends on the
pointer: `_terminationCriteriumIsMet`, `terminateScout` and both `_scoutBestScore`
overloads give, on a scout with any other pointer `ref`, the same value and the
same scout up to that pointer, which they hand on as it is. -/
theorem unbound_terminator_scout_supports_the_flag {TDPCell : Type} {LENGTH H0 : Nat}
    (arch : SimdArch) (dflt : TDPCell) (mem scout : DPScout_ TDPCell LENGTH H0 .Terminator)
    (s : Scalar.Scout g H .Terminator) (c : DPCell_ Int g) (p : Nat) (a b : Bool)
    (S : Simd.Scout g H .Terminator) (C : DPCell_ (Fin (2 * H) → Int) g) (P : Nat)
    (A B : Bool) (ref : Option Nat) :
    ((DPScout_.ctorTerminator dflt mem).terminator.state = none ∧
      _terminationCriteriumIsMet (DPScout_.ctorTerminator dflt mem) = false ∧
      _terminationCriteriumIsMet (terminateScout (DPScout_.ctorTerminator dflt mem)) = true ∧
      (terminateScout (DPScout_.ctorTerminator dflt mem)).terminator.state = none) ∧
    (_terminationCriteriumIsMet (scout.withState ref) = _terminationCriteriumIsMet scout ∧
      terminateScout (scout.withState ref) = (terminateScout scout).withState ref ∧
      Scalar._scoutBestScore (s.withState ref) c p a b =
        (Scalar._scoutBestScore s c p a b).withState ref ∧
      Simd._scoutBestScore arch (S.withState ref) C P A B =
        (Simd._scoutBestScore arch S C P A B).withState ref) ∧
    ((terminateScout scout).terminator.state = scout.terminator.state ∧
      (Scalar._scoutBestScore s c p a b).terminator.state = s.terminator.state ∧
      (Simd._scoutBestScore arch S C P A B).terminator.state = S.terminator.state) := by
  refine ⟨⟨rfl, rfl, rfl, rfl⟩, ⟨rfl, rfl, ?_, ?_⟩, ⟨rfl, ?_, ?_⟩⟩
  · unfold Scalar._scoutBestScore
    by_cases h : _scoreOfCell c > _scoreOfCell s._maxScore
    · rw [if_pos h, if_pos (show _scoreOfCell c > _scoreOfCell (s.withState ref)._maxScore from h)]
      rfl
    · rw [if_neg h, if_neg (show ¬ _scoreOfCell c > _scoreOfCell (s.withState ref)._maxScore from h)]
  · cases arch <;> cases g <;> rfl
  · rw [scalar_step_terminator]
  · rw [simd_step_terminator]

/-- C13, the claim refuted: the affine scout that stores the score 2 is shown the
cell (7, -3, 5) at position `2 ^ 32 + 9`; the cell is adopted, and the stored
position is 9, not the position. -/
theorem adopted_position_is_not_the_position_itself :
    maxScore Example.affineScalar < 7 ∧
    maxScore (Scalar._scoutBestScore Example.affineScalar
      { _score := 7, _horizontalScore := -3, _verticalScore := 5 }
      (2 ^ 32 + 9) false false) = 7 ∧
    maxHostPosition (Scalar._scoutBestScore Example.affineScalar
      { _score := 7, _horizontalScore := -3, _verticalScore := 5 }
      (2 ^ 32 + 9) false false) 0 = 9 ∧
    maxHostPosition (Scalar._scoutBestScore Example.affineScalar
      { _score := 7, _horizontalScore := -3, _verticalScore := 5 }
      (2 ^ 32 + 9) false false) 0 ≠ 2 ^ 32 + 9 := by
  decide

/-- C13, amended.  One scalar update: when the score of the cell is strictly greater than the
stored score, the stored cell is the whole incoming cell and the stored position is
the incoming position as the 32-bit slot holds it (the position itself when it is
below `2 ^ 32`), and no other member changes; otherwise, ties included, the scout is
unchanged. -/
theorem scalar_update_adopts_cell_and_position_or_nothing (s : Scalar.Scout g H TSpec)
    (c : DPCell_ Int g) (p : Nat) (a b : Bool) :
    (maxScore s < _scoreOfCell c →
      (Scalar._scoutBestScore s c p a b)._maxScore = c ∧
      maxHostPosition (Scalar._scoutBestScore s c p a b) 0 = p % 2 ^ 32 ∧
      (p < 2 ^ 32 → maxHostPosition (Scalar._scoutBestScore s c p a b) 0 = p) ∧
      (Scalar._scoutBestScore s c p a b)._maxHostLow = s._maxHostLow ∧
      (Scalar._scoutBestScore s c p a b)._maxHostHigh = s._maxHostHigh ∧
      (Scalar._scoutBestScore s c p a b).terminator = s.terminator) ∧
    (_scoreOfCell c ≤ maxScore s → Scalar._scoutBestScore s c p a b = s) := by
  constructor
  · intro h
    rw [scalar_step_of_gt s c p a b h]
    refine ⟨rfl, ?_, ?_, rfl, rfl, rfl⟩
    · simp [maxHostPosition]
    · intro hp
      simp only [maxHostPosition, Function.update_same]
      exact Nat.mod_eq_of_lt hp
  · intro h
    exact scalar_step_of_le s c p a b h

/-- C13, amended, at the affine scout that stores (2, 0, 0) found at position 4: the cell
(7, -3, 5) at position 9 is adopted whole with its position; the cell (2, 8, 9), a
tie with other auxiliary fields, changes nothing. -/
theorem scalar_update_adopts_cell_and_position_or_nothing_witness :
    ((Scalar._scoutBestScore Example.affineScalar
        { _score := 7, _horizontalScore := -3, _verticalScore := 5 } 9 false false)._maxScore =
        { _score := 7, _horizontalScore := -3, _verticalScore := 5 } ∧
      maxHostPosition (Scalar._scoutBestScore Example.affineScalar
        { _score := 7, _horizontalScore := -3, _verticalScore := 5 } 9 false false) 0 = 9) ∧
    Scalar._scoutBestScore Example.affineScalar
        { _score := 2, _horizontalScore := 8, _verticalScore := 9 } 9 false false =
      Example.affineScalar :=
  ⟨⟨((scalar_update_adopts_cell_and_position_or_nothing Example.affineScalar
        { _score := 7, _horizontalScore := -3, _verticalScore := 5 } 9 false false).1
        (by decide)).1,
    ((scalar_update_adopts_cell_and_position_or_nothing Example.affineScalar
        { _score := 7, _horizontalScore := -3, _verticalScore := 5 } 9 false false).1
        (by decide)).2.2.1 (by decide)⟩,
    (scalar_update_adopts_cell_and_position_or_nothing Example.affineScalar
      { _score := 2, _horizontalScore := 8, _verticalScore := 9 } 9 false false).2 (by decide)⟩

/-- C15. The stored maximum is monotone: after one update the stored score is the
maximum of the stored score before and the incoming score, so it is at least each of
them; in the scalar update, and in every lane of the vectorized update for each
gap-cost model and both instruction sets. -/
theorem stored_score_is_max_of_old_and_incoming {H2 : Nat} {TSpec2 : ScoutSpec}
    (arch : SimdArch) (s : Scalar.Scout g H TSpec) (c : DPCell_ Int g) (p : Nat) (a b : Bool)
    (S : Simd.Scout g H2 TSpec2) (C : DPCell_ (Fin (2 * H2) → Int) g) (P : Nat) (A B : Bool)
    (k : Fin (2 * H2)) :
    (maxScore (Scalar._scoutBestScore s c p a b) = max (maxScore s) (_scoreOfCell c) ∧
      maxScore s ≤ maxScore (Scalar._scoutBestScore s c p a b) ∧
      _scoreOfCell c ≤ maxScore (Scalar._scoutBestScore s c p a b)) ∧
    (maxScore (Simd._scoutBestScore arch S C P A B) k =
        max (maxScore S k) (_scoreOfCell C k) ∧
      maxScore S k ≤ maxScore (Simd._scoutBestScore arch S C P A B) k ∧
      _scoreOfCell C k ≤ maxScore (Simd._scoutBestScore arch S C P A B) k) := by
  have h1 := scalar_maxScore_step s c p a b
  have h2 : maxScore (Simd._scoutBestScore arch S C P A B) k =
      max (maxScore S k) (_scoreOfCell C k) := by
    rw [simd_step_maxScore_lane]
    by_cases h : maxScore S k < _scoreOfCell C k
    · rw [if_pos h, max_eq_right (le_of_lt h)]
    · rw [if_neg h, max_eq_left (not_lt.mp h)]
  refine ⟨⟨h1, ?_, ?_⟩, ⟨h2, ?_, ?_⟩⟩
  · rw [h1]; exact le_max_left _ _
  · rw [h1]; exact le_max_right _ _
  · rw [h2]; exact le_max_left _ _
  · rw [h2]; exact le_max_right _ _

/-- C17. Stored positions are 32-bit: after a scalar update that adopts the incoming
cell, `maxHostPosition(0)` is the position modulo `2 ^ 32`; it is the position
exactly when the position is below `2 ^ 32`; and an update with any position
congruent modulo `2 ^ 32` leaves the same scout. -/
theorem stored_position_is_position_mod_two_pow_32 (s : Scalar.Scout g H TSpec)
    (c : DPCell_ Int g) (p : Nat) (a b : Bool) (hadopt : maxScore s < _scoreOfCell c) :
    maxHostPosition (Scalar._scoutBestScore s c p a b) 0 = p % 2 ^ 32 ∧
    (maxHostPosition (Scalar._scoutBestScore s c p a b) 0 = p ↔ p < 2 ^ 32) ∧
    (∀ q, q % 2 ^ 32 = p % 2 ^ 32 →
      Scalar._scoutBestScore s c q a b = Scalar._scoutBestScore s c p a b) := by
  have hpos : maxHostPosition (Scalar._scoutBestScore s c p a b) 0 = p % 2 ^ 32 := by
    rw [scalar_step_position, if_pos hadopt]
  refine ⟨hpos, ?_, ?_⟩
  · rw [hpos]
    constructor
    · intro h
      rw [← h]
      exact Nat.mod_lt _ (by decide)
    · intro h
      exact Nat.mod_eq_of_lt h
  · intro q hq
    rw [scalar_step_of_gt s c q a b hadopt, scalar_step_of_gt s c p a b hadopt, hq]

/-- C17 at the position `2 ^ 32 + 7`: the fresh scout adopts the cell and returns
position 7, as it does for the position 7 itself. -/
theorem stored_position_is_position_mod_two_pow_32_witness :
    maxScore Example.freshScalar < @_scoreOfCell Int .LinearGaps { _score := 3 } ∧
    (maxHostPosition
        (Scalar._scoutBestScore Example.freshScalar { _score := 3 } (2 ^ 32 + 7) false false) 0
        = 7 ∧
      Scalar._scoutBestScore Example.freshScalar { _score := 3 } 7 false false =
        Scalar._scoutBestScore Example.freshScalar { _score := 3 } (2 ^ 32 + 7) false false) :=
  ⟨by decide,
    ((stored_position_is_position_mod_two_pow_32 Example.freshScalar { _score := 3 }
        (2 ^ 32 + 7) false false (by decide)).1).trans (by decide),
    (stored_position_is_position_mod_two_pow_32 Example.freshScalar { _score := 3 }
        (2 ^ 32 + 7) false false (by decide)).2.2 7 (by decide)⟩

end Claims

end seqan
